import Mathlib

/-!
Verification development for the cpptxrx operation-coordination engine
(headers under `src/include/`).  Each C++ structure or function used by a
claim is shallowly embedded as an executable Lean definition translated
from its source; machine integers are modelled as `Nat`/`Int` with explicit
wrap-around where the C++ performs one, pointers as `Option` values, and
buffers as lists of byte values.
-/

set_option maxRecDepth 10000

/-! ## Status model (`cpptxrx_status.h`)

The `status_e` class stores an `int value` (standard statuses are the
negative enumerators; values `>= 0` are user error codes) together with a
borrowed c-string `error_num_str` (here `Option String`, `none` = `nullptr`).
-/

/-- standard_status_e::SUCCESS (`cpptxrx_status.h` line 25). -/
def SUCCESS : Int := -1

/-- standard_status_e::TIMED_OUT. -/
def TIMED_OUT : Int := -2

/-- standard_status_e::DISABLED. -/
def DISABLED : Int := -3

/-- standard_status_e::CANCELED_IN_DESTROY. -/
def CANCELED_IN_DESTROY : Int := -4

/-- standard_status_e::NOT_OPEN. -/
def NOT_OPEN : Int := -5

/-- standard_status_e::FAILED_ALREADY_OPEN. -/
def FAILED_ALREADY_OPEN : Int := -6

/-- standard_status_e::NO_PRIOR_OPEN_ARGS. -/
def NO_PRIOR_OPEN_ARGS : Int := -7

/-- standard_status_e::START_NEW_OP. -/
def START_NEW_OP : Int := -8

/-- standard_status_e::OP_IN_PROGRESS. -/
def OP_IN_PROGRESS : Int := -9

/-- standard_status_e::RECV_CALLBACK_NOT_VALID_IN_RAW. -/
def RECV_CALLBACK_NOT_VALID_IN_RAW : Int := -10

/-- standard_status_e::INVALID_ARG_RECV_CALLBACK_FUNC. -/
def INVALID_ARG_RECV_CALLBACK_FUNC : Int := -11

/-- standard_status_e::SEE_ERROR_CODE. -/
def SEE_ERROR_CODE : Int := -19

/-- models the C++ conversion of an `unsigned int` value to a 32-bit `int`
(the assignment `value = err_num` in `status_e::set_error_code`): the value
is reduced mod 2^32 and mapped into the interval [-2^31, 2^31). -/
def int32_of_uint32 (n : Nat) : Int :=
  if n % 4294967296 < 2147483648 then ((n % 4294967296 : Nat) : Int)
  else ((n % 4294967296 : Nat) : Int) - 4294967296

/-- the `interface::status_e` class (`cpptxrx_status.h` lines 15-320): an
`int value` plus the borrowed error c-string `error_num_str`. -/
structure status_e where
  value : Int
  error_num_str : Option String := none
deriving DecidableEq, Repr

/-- constructor `status_e(standard_status_e val)` - a plain standard status. -/
def status_e.of_standard (v : Int) : status_e := ⟨v, none⟩

/-- operator standard_status_e (`cpptxrx_status.h` lines 158-163): values
`>= 0` convert to `SEE_ERROR_CODE`, negative values to themselves. -/
def status_e.to_standard (s : status_e) : Int :=
  if 0 ≤ s.value then SEE_ERROR_CODE else s.value

/-- operator bool (`cpptxrx_status.h` lines 173-176): true exactly when the
value equals `SUCCESS`. -/
def status_e.to_bool (s : status_e) : Bool :=
  s.value = SUCCESS

/-- status_e::is_operating (`cpptxrx_status.h` lines 190-194). -/
def status_e.is_operating (s : status_e) : Bool :=
  s.value = START_NEW_OP || s.value = OP_IN_PROGRESS

/-- status_e::set_error_code (`cpptxrx_status.h` lines 200-204): stores the
unsigned code in the `int value` field (with the unsigned-to-int
conversion) and the decoder string. -/
def status_e.set_error_code (_s : status_e) (err_num : Nat) (error_num_decoder : String) : status_e :=
  { value := int32_of_uint32 err_num, error_num_str := some error_num_decoder }

/-- status_e::set_error_with_additional_info (`cpptxrx_status.h` lines 210-214). -/
def status_e.set_error_with_additional_info (_s : status_e) (err_val : Int) (error_info : String) : status_e :=
  { value := err_val, error_num_str := some error_info }

/-- status_e::get_error_code (`cpptxrx_status.h` lines 219-222): computes
`value * (value >= 0)` and returns it as an unsigned value. -/
def status_e.get_error_code (s : status_e) : Nat :=
  if 0 ≤ s.value then s.value.toNat else 0

/-! ## Storage slots (`cpptxrx_filter.h`)

`storage_abstract_t` carries a `max_size`, a data pointer into a byte array
and a current fill `size`.  The pointer and the underlying array are
modelled together as `Option (List Nat)` (`none` = `nullptr`); the list is
the raw buffer, whose length is the real capacity (for the concrete
`storage_t<N>` the capacity equals `max_size`). -/

/-- the `filter::storage_abstract_t` class (`cpptxrx_filter.h` lines 176-256). -/
structure storage_abstract_t where
  max_size : Nat
  data : Option (List Nat)
  size : Nat
deriving DecidableEq, Repr

/-- storage_abstract_t::append for a byte array (`cpptxrx_filter.h` lines
209-218): fails (returning `false`, unchanged) when the final size would
exceed `max_size` or either pointer is null; otherwise writes the appended
bytes at positions `size..size+n-1` and sets `size` to the final size.
The appended `(pointer, size)` pair is modelled as `Option (List Nat)`:
`none` = `nullptr`, `some l` = a valid array of `l.length` bytes. -/
def storage_abstract_t.append (st : storage_abstract_t) (appended_data : Option (List Nat)) :
    Bool × storage_abstract_t :=
  match st.data, appended_data with
  | some buf, some app =>
    let final_size := st.size + app.length
    if final_size > st.max_size then (false, st)
    else (true, { st with
      data := some (buf.take st.size ++ app ++ buf.drop (st.size + app.length)),
      size := final_size })
  | _, _ => (false, st)

/-- storage_abstract_t::append for a single byte (`cpptxrx_filter.h` lines
195-201): fails when `size >= max_size`, otherwise writes one byte at
index `size` and increments `size`.  This single-byte overload is used by
the delimiter and SLIP-decode filters; in the list model the write at the
fill index is the push of one element. -/
def storage_abstract_t.append_byte (st : storage_abstract_t) (b : Nat) :
    Bool × storage_abstract_t :=
  if st.size ≥ st.max_size then (false, st)
  else (true, { st with
    data := (st.data.map fun buf => buf.take st.size ++ [b] ++ buf.drop (st.size + 1)),
    size := st.size + 1 })

/-! ## Data handles and the filter process wrapper (`cpptxrx_filter.h`)

For the wrapper `filter::base_class::process` only the liveness of the two
`data_t` handles matters (`operator bool` = `size > 0 && data != nullptr`),
so a handle is modelled by its pointer nullness and size. -/

/-- liveness view of a `filter::data_t` handle (`cpptxrx_filter.h` lines
304-307): the data pointer nullness and the size. -/
structure data_handle where
  is_null : Bool
  size : Nat
deriving DecidableEq, Repr

/-- operator bool of `data_t` (`cpptxrx_filter.h` lines 313-316): live iff
`size > 0` and the data pointer is not null. -/
def data_handle.live (d : data_handle) : Bool :=
  decide (d.size > 0) && !d.is_null

/-- the `filter::result_e_impl` enumeration (`cpptxrx_filter.h` lines 442-451). -/
inductive result_impl where
  | CONTINUE
  | FORCE_TO_KEEP_PROCESSING
  | ABORT
  | ABORT_EXCEEDED_STORAGE
  | ABORT_DATA_FORMAT_ERROR
deriving DecidableEq, Repr

/-- the numeric value of a `result_e_impl` enumerator (declaration order,
`uint8_t` underlying type). -/
def result_impl.code : result_impl → Nat
  | .CONTINUE => 0
  | .FORCE_TO_KEEP_PROCESSING => 1
  | .ABORT => 2
  | .ABORT_EXCEEDED_STORAGE => 3
  | .ABORT_DATA_FORMAT_ERROR => 4

/-- the `filter::result_e` struct (`cpptxrx_filter.h` lines 438-511): the
enum value plus the name of the filter that had an error (`nullptr` =
`none` when no error was recorded). -/
structure result_e where
  value : result_impl
  filter_with_error : Option String := none
deriving DecidableEq, Repr

/-- result_e::is_aborted (`cpptxrx_filter.h` lines 495-498): true when the
numeric value is at least that of `ABORT`. -/
def result_e.is_aborted (r : result_e) : Bool :=
  r.value.code ≥ result_impl.ABORT.code

/-- the `filter::restrict_inputs_e` enumeration (`cpptxrx_filter.h` lines 543-547). -/
inductive restrict_inputs_e where
  | ONLY_VALID
  | ALLOW_EMPTY
deriving DecidableEq, Repr

/-- the `filter::restrict_storage_e` enumeration (`cpptxrx_filter.h` lines 524-539). -/
inductive restrict_storage_e where
  | ALLOW_REUSE_OF_INPUT_MEMORY_AS_OUTPUT
  | NEVER_USE_INPUT_MEMORY_AS_OUTPUT
deriving DecidableEq, Repr

/-- the wrapper `filter::base_class::process` (`cpptxrx_filter.h` lines
673-694).  The user-defined `operator()` body is a parameter taking the two
handles and returning the result plus the updated handles.  The wrapper:
skips the body returning `CONTINUE` when inputs are restricted to valid and
the input is not live; skips the body returning `CONTINUE` when the output
handle is already live; tags aborts with the filter name; and upgrades a
non-aborted result to `FORCE_TO_KEEP_PROCESSING` when the input handle is
still live after the body ran (the assignment `r = result_e::FORCE_TO_KEEP_PROCESSING`
re-constructs the result, clearing `filter_with_error` to null). -/
def base_process (restrict_inputs : restrict_inputs_e) (name : String)
    (body : data_handle → data_handle → result_e × data_handle × data_handle)
    (input output : data_handle) : result_e × data_handle × data_handle :=
  if restrict_inputs = .ONLY_VALID ∧ input.live = false then
    (⟨.CONTINUE, none⟩, input, output)
  else if output.live then
    (⟨.CONTINUE, none⟩, input, output)
  else
    let r := (body input output).1
    let input' := (body input output).2.1
    let output' := (body input output).2.2
    if r.is_aborted then ({ r with filter_with_error := some name }, input', output')
    else if input'.live then (⟨.FORCE_TO_KEEP_PROCESSING, none⟩, input', output')
    else (r, input', output')

/-! ## SLIP filters (`cpptxrx_filters.h`, namespace `filters::slip`)

The encoder and decoder bodies act on byte streams; a `data_t` input is the
list of its remaining bytes (`pop_front` = head removal) and the chosen
output storage is an append-only buffer, modelled by the list of bytes
accumulated so far (its `size` is the list length; `start_and_consume`
empties it).  The decoder persists `in_escape` / `need_first_frame_end` /
the storage across calls; emitting an output returns early and the filter
processor re-invokes the filter on the remaining input, so a whole stream
is processed byte by byte, collecting the emitted frames in order. -/

/-- slip::frame_end (0xC0). -/
def frame_end : Nat := 0xC0

/-- slip::frame_escape (0xDB). -/
def frame_escape : Nat := 0xDB

/-- slip::transposed_frame_end (0xDC). -/
def transposed_frame_end : Nat := 0xDC

/-- slip::transposed_frame_escape (0xDD). -/
def transposed_frame_escape : Nat := 0xDD

/-- the encoding of one byte by `slip::encode::operator()` (`cpptxrx_filters.h`
lines 458-479): `0xC0` becomes `0xDB 0xDC`, `0xDB` becomes `0xDB 0xDD`,
anything else is copied. -/
def escaped_byte (b : Nat) : List Nat :=
  if b = frame_end then [frame_escape, transposed_frame_end]
  else if b = frame_escape then [frame_escape, transposed_frame_escape]
  else [b]

/-- the byte-wise SLIP escaping of a whole input (concatenation of
`escaped_byte`), used to characterise the encoder loop. -/
def encoded_bytes : List Nat → List Nat
  | [] => []
  | b :: rest => escaped_byte b ++ encoded_bytes rest

/-- the number of input bytes that need escaping (each grows
`minimum_encoded_size` by one in the encoder loop). -/
def num_escapes : List Nat → Nat
  | [] => 0
  | b :: rest => (if b = frame_end ∨ b = frame_escape then 1 else 0) + num_escapes rest

/-- the for-loop of `slip::encode::operator()` (`cpptxrx_filters.h` lines
458-480) over the remaining input, carrying `minimum_encoded_size` and the
storage contents; each escaped byte first increments the minimum and
re-checks it against `max_size` (abort = `ABORT_EXCEEDED_STORAGE` = `none`);
after the loop the final `frame_end` byte is appended. -/
def slip_encode_loop (max_size : Nat) : List Nat → Nat → List Nat → Option (List Nat)
  | [], _minimum, storage => some (storage ++ [frame_end])
  | element :: rest, minimum, storage =>
    if element = frame_end then
      if minimum + 1 > max_size then none
      else slip_encode_loop max_size rest (minimum + 1) (storage ++ [frame_escape, transposed_frame_end])
    else if element = frame_escape then
      if minimum + 1 > max_size then none
      else slip_encode_loop max_size rest (minimum + 1) (storage ++ [frame_escape, transposed_frame_escape])
    else slip_encode_loop max_size rest minimum (storage ++ [element])

/-- slip::encode::operator() for the default `prefix_with_frame_end_e::NO`
flavour (`cpptxrx_filters.h` lines 446-484): `minimum_encoded_size` starts
at `input.size + 1`, aborts immediately when it exceeds the storage
`max_size`, then the loop runs; `none` models the `ABORT_EXCEEDED_STORAGE`
return, `some` the emitted output bytes. -/
def slip_encode (max_size : Nat) (input : List Nat) : Option (List Nat) :=
  if input.length + 1 > max_size then none
  else slip_encode_loop max_size input (input.length + 1) []

/-- the persistent state of `slip::decode` (`cpptxrx_filters.h` lines
502-503 plus its chosen output storage). -/
structure slip_decode_state where
  in_escape : Bool
  need_first_frame_end : Bool
  storage : List Nat
deriving DecidableEq, Repr

/-- result of processing one byte in `slip::decode::operator()`: the new
state plus an optionally emitted frame, or one of the abort returns. -/
inductive slip_step_result where
  | ok (st : slip_decode_state) (emitted : Option (List Nat))
  | abort_exceeded_storage
  | abort_data_format_error
deriving DecidableEq, Repr

/-- one iteration of the while-loop of `slip::decode::operator()`
(`cpptxrx_filters.h` lines 507-551) on the popped byte `element`: skip all
bytes until a frame end while `need_first_frame_end`; in an escape accept
only the two transposed codes (appending the unescaped byte, bound-checked
against the storage `max_size`) and reject others with a data-format abort;
a frame end emits the storage when non-empty (consuming it) and is ignored
otherwise; a frame escape enters the escape state; any other byte is
appended (bound-checked). -/
def slip_decode_byte (max_size : Nat) (st : slip_decode_state) (element : Nat) : slip_step_result :=
  if st.need_first_frame_end then
    .ok { st with need_first_frame_end := element ≠ frame_end } none
  else if st.in_escape then
    if element = transposed_frame_end then
      if st.storage.length ≥ max_size then .abort_exceeded_storage
      else .ok { st with in_escape := false, storage := st.storage ++ [frame_end] } none
    else if element = transposed_frame_escape then
      if st.storage.length ≥ max_size then .abort_exceeded_storage
      else .ok { st with in_escape := false, storage := st.storage ++ [frame_escape] } none
    else .abort_data_format_error
  else if element = frame_end then
    if st.storage.length > 0 then .ok { st with storage := [] } (some st.storage)
    else .ok st none
  else if element = frame_escape then
    .ok { st with in_escape := true } none
  else
    if st.storage.length ≥ max_size then .abort_exceeded_storage
    else .ok { st with storage := st.storage ++ [element] } none

/-- runs `slip::decode` over a whole byte stream (the filter processor
re-invokes the filter until the input is consumed), collecting the emitted
frames in order; `none` models an abort of the stream. -/
def slip_decode_run (max_size : Nat) : slip_decode_state → List Nat → Option (slip_decode_state × List (List Nat))
  | st, [] => some (st, [])
  | st, element :: rest =>
    match slip_decode_byte max_size st element with
    | .ok st' none => slip_decode_run max_size st' rest
    | .ok st' (some frame) =>
      match slip_decode_run max_size st' rest with
      | some (st2, frames) => some (st2, frame :: frames)
      | none => none
    | _ => none

/-- the initial `slip::decode` state (`cpptxrx_filters.h` lines 502-503):
`in_escape = false` and `need_first_frame_end` given by the
`wait_for_first_frame_end` template flavour. -/
def slip_decode_initial_state (wait_for_first_frame_end : Bool) : slip_decode_state :=
  ⟨false, wait_for_first_frame_end, []⟩

/-- the frames yielded by `slip::decode` (default
`wait_for_first_frame_end_e::NO` flavour) on a byte stream, `none` on abort. -/
def slip_decode_frames (max_size : Nat) (input : List Nat) : Option (List (List Nat)) :=
  (slip_decode_run max_size (slip_decode_initial_state false) input).map (·.2)

/-- applies `slip::encode` to each of a list of messages, `none` if any
encoding aborts. -/
def slip_encode_all (max_size : Nat) : List (List Nat) → Option (List (List Nat))
  | [] => some []
  | B :: Bs =>
    match slip_encode max_size B, slip_encode_all max_size Bs with
    | some e, some es => some (e :: es)
    | _, _ => none

/-! ## Delimiter filters (`cpptxrx_filters.h`, `type_delimit` / `data_delimit`)

The bodies of `type_delimit<delimiter_type>::operator()` (lines 239-274)
and `data_delimit::operator()` (lines 349-384) are identical up to where
the delimiter bytes come from (a compile-time array vs the runtime
`delimiter_array`); both are embedded once, parameterised by the delimiter
byte list.  The persistent state is `matched_delimiter_elements` plus the
chosen output storage (an accumulated byte list, as for SLIP). -/

/-- the persistent state of a delimiter filter: the count of delimiter
bytes currently matched and the accumulated storage. -/
structure delimit_state where
  matched_delimiter_elements : Nat
  storage : List Nat
deriving DecidableEq, Repr

/-- result of processing one byte in a delimiter filter: the new state plus
an optionally emitted frame, or the storage-exceeded abort. -/
inductive delimit_step_result where
  | ok (st : delimit_state) (emitted : Option (List Nat))
  | abort_exceeded_storage
deriving DecidableEq, Repr

/-- one iteration of the while-loop of `type_delimit::operator()`
(`cpptxrx_filters.h` lines 242-272) on the popped byte: when it equals the
next expected delimiter byte the match count is incremented, and on a full
match the count resets, the previously appended `delimiter.length - 1`
partial-match bytes are trimmed off the storage size, and the storage is
emitted (consumed) before the current byte would be appended; on a
mismatch the count resets to zero; in the non-emitting cases the byte is
appended (bound-checked against the storage `max_size`). -/
def type_delimit_byte (delimiter : List Nat) (max_size : Nat) (st : delimit_state) (next_byte : Nat) :
    delimit_step_result :=
  if next_byte = delimiter.getD st.matched_delimiter_elements 0 then
    if st.matched_delimiter_elements + 1 ≥ delimiter.length then
      .ok ⟨0, []⟩ (some (st.storage.take (st.storage.length - (delimiter.length - 1))))
    else
      if st.storage.length ≥ max_size then .abort_exceeded_storage
      else .ok ⟨st.matched_delimiter_elements + 1, st.storage ++ [next_byte]⟩ none
  else
    if st.storage.length ≥ max_size then .abort_exceeded_storage
    else .ok ⟨0, st.storage ++ [next_byte]⟩ none

/-- runs a delimiter filter over a whole byte stream (the filter processor
re-invokes the filter until the input is consumed), collecting the emitted
frames in order; `none` models an abort. -/
def type_delimit_run (delimiter : List Nat) (max_size : Nat) :
    delimit_state → List Nat → Option (delimit_state × List (List Nat))
  | st, [] => some (st, [])
  | st, b :: rest =>
    match type_delimit_byte delimiter max_size st b with
    | .ok st' none => type_delimit_run delimiter max_size st' rest
    | .ok st' (some frame) =>
      match type_delimit_run delimiter max_size st' rest with
      | some (st2, frames) => some (st2, frame :: frames)
      | none => none
    | .abort_exceeded_storage => none

/-! ## Storage planner (`cpptxrx_filter.h`, forward and backward passes)

A filter chain is a rightward tree: `chained<F1,F2,...>` holds `f1` and the
chained tail `f2`.  Each base filter owns a local input and a local output
slot (`storage_t<max_packet_size>`); the planner makes `best_input_storage`
and `best_output_storage` point at local or neighbouring slots, or at the
user receive storage handed in by `filter_processor::process_receiving_filter`
(line 165).  Slots are identified by references (pointer identity becomes
`slot_ref` equality); each base filter carries a distinct id `fid` for its
local slots. -/

/-- a reference to one storage slot: a filter's local input slot, a
filter's local output slot, or the external user receive storage (whose
declared max size is carried in the reference). -/
inductive slot_ref where
  | local_input (fid : Nat)
  | local_output (fid : Nat)
  | user_storage (max_size : Nat)
deriving DecidableEq, Repr

/-- the max size of the storage a slot reference points at: local slots of
filter `fid` are `storage_t<max_packet_size>` of that filter (`env fid`
maps the filter id to its `max_packet_size`); the user storage carries its
own max size. -/
def slot_max_size (env : Nat → Nat) : slot_ref → Nat
  | .local_input fid => env fid
  | .local_output fid => env fid
  | .user_storage m => m

/-- a filter chain with the planner-visible state of each base filter:
`base` carries the filter id, `max_packet_size`, the storage restriction
and the current `best_input_storage` / `best_output_storage` references;
`node` is `chained<F1, F2...>`. -/
inductive fchain where
  | base (fid : Nat) (max_packet_size : Nat) (restrict_storage : restrict_storage_e)
         (best_input best_output : slot_ref)
  | node (f1 f2 : fchain)
deriving DecidableEq, Repr

/-- get_best_output_storage (`cpptxrx_filter.h` lines 695-698 and 848-851):
a base filter returns its best output reference, a chain returns `f2`'s. -/
def fchain.get_best_output : fchain → slot_ref
  | .base _ _ _ _ bo => bo
  | .node _ f2 => f2.get_best_output

/-- get_best_input_storage (`cpptxrx_filter.h` lines 699-702 and 852-855):
a base filter returns its best input reference, a chain returns `f1`'s. -/
def fchain.get_best_input : fchain → slot_ref
  | .base _ _ _ bi _ => bi
  | .node f1 _ => f1.get_best_input

/-- select_best_storage_forward_pass (`cpptxrx_filter.h` lines 720-749 for
a base filter, lines 856-860 for a chain): an `ALLOW_REUSE` filter adopts
the upstream output as both input and output when it is non-null and at
least `max_packet_size` big, else falls back to its local input slot for
both; a `NEVER` filter adopts the upstream output as input under the same
size condition, its output always being the local output slot.  A chain
runs `f1` on the upstream slot and `f2` on `f1`'s resulting best output. -/
def fchain.forward (env : Nat → Nat) : fchain → Option slot_ref → fchain
  | .base fid mps rs _bi _bo, prior =>
    match rs with
    | .ALLOW_REUSE_OF_INPUT_MEMORY_AS_OUTPUT =>
      match prior with
      | some p =>
        if slot_max_size env p ≥ mps then .base fid mps rs p p
        else .base fid mps rs (.local_input fid) (.local_input fid)
      | none => .base fid mps rs (.local_input fid) (.local_input fid)
    | .NEVER_USE_INPUT_MEMORY_AS_OUTPUT =>
      match prior with
      | some p =>
        if slot_max_size env p ≥ mps then .base fid mps rs p (.local_output fid)
        else .base fid mps rs (.local_input fid) (.local_output fid)
      | none => .base fid mps rs (.local_input fid) (.local_output fid)
  | .node f1 f2, prior =>
    let f1' := f1.forward env prior
    .node f1' (f2.forward env (some f1'.get_best_output))

/-- select_best_storage_backwards_pass (`cpptxrx_filter.h` lines 750-762
for a base filter, lines 861-866 for a chain): a base filter adopts a
non-null `next` as its best output with no size check (the source comment
notes the missing `next->max_size >= max_packet_size` check on purpose),
and an `ALLOW_REUSE` filter adopts it as best input too; a chain first runs
`f2` backwards and propagates `next` to `f1` exactly when `f2`'s best input
storage has become `next`. -/
def fchain.backward : fchain → Option slot_ref → fchain
  | .base fid mps rs bi bo, next =>
    match next with
    | some n =>
      match rs with
      | .ALLOW_REUSE_OF_INPUT_MEMORY_AS_OUTPUT => .base fid mps rs n n
      | .NEVER_USE_INPUT_MEMORY_AS_OUTPUT => .base fid mps rs bi n
    | none => .base fid mps rs bi bo
  | .node f1 f2, next =>
    let f2' := f2.backward next
    if some f2'.get_best_input = next then .node (f1.backward next) f2'
    else .node f1 f2'

/-- the max_packet_size of a base filter node (template argument
`max_packet_size_arg` of `filter::base_class`). -/
def fchain.max_packet_size : fchain → Nat
  | .base _ mps _ _ _ => mps
  | .node f1 _ => f1.max_packet_size

/-! ## Operation bitmask backend (`cpptxrx_op_backend.h`)

`backend::op_bitmasks` packs, per operation category, a request / accept /
complete bit triple into one unsigned integer (`uint_fast32_t`, at least 32
bits; all used bits are below 32, so values are reduced through 32-bit
masks).  The factory additionally calls `is_disabled` / `enable_op` /
`disable_op` on it, which are not present in the `cpptxrx_op_backend.h`
shipped under `src`; that part is modelled from the spec below. -/

/-- the `backend::op_category_e` enumeration (`cpptxrx_op_backend.h` lines
24-32); `ofs` is the enumerator's numeric value, used as a shift offset. -/
inductive op_category_e where
  | OPEN
  | CLOSE
  | SEND
  | RECEIVE
  | DESTROY
  | CONSTRUCT
deriving DecidableEq, Repr

/-- the numeric value of each operation category (`OPEN = 0`, `CLOSE = 3`,
`SEND = 6`, `RECEIVE = 9`, `DESTROY = 12`, `CONSTRUCT = 15`). -/
def op_category_e.ofs : op_category_e → Nat
  | .OPEN => 0
  | .CLOSE => 3
  | .SEND => 6
  | .RECEIVE => 9
  | .DESTROY => 12
  | .CONSTRUCT => 15

/-- op_bitmasks::REL_REQUEST (0b001). -/
def REL_REQUEST : Nat := 1

/-- op_bitmasks::REL_ACCEPT (0b010). -/
def REL_ACCEPT : Nat := 2

/-- op_bitmasks::REL_COMPLETE (0b100). -/
def REL_COMPLETE : Nat := 4

/-- op_bitmasks::REL_ALL (0b111). -/
def REL_ALL : Nat := 7

/-- op_bitmasks::OPEN_REQUEST. -/
def OPEN_REQUEST : Nat := REL_REQUEST <<< 0

/-- op_bitmasks::ANY_OPEN. -/
def ANY_OPEN : Nat := REL_ALL <<< 0

/-- op_bitmasks::CLOSE_REQUEST. -/
def CLOSE_REQUEST : Nat := REL_REQUEST <<< 3

/-- op_bitmasks::ANY_CLOSE. -/
def ANY_CLOSE : Nat := REL_ALL <<< 3

/-- op_bitmasks::SEND_REQUEST. -/
def SEND_REQUEST : Nat := REL_REQUEST <<< 6

/-- op_bitmasks::RECEIVE_REQUEST. -/
def RECEIVE_REQUEST : Nat := REL_REQUEST <<< 9

/-- op_bitmasks::DESTROY_REQUEST. -/
def DESTROY_REQUEST : Nat := REL_REQUEST <<< 12

/-- op_bitmasks::ANY_DESTROY. -/
def ANY_DESTROY : Nat := REL_ALL <<< 12

/-- op_bitmasks::ANY_REQUEST. -/
def ANY_REQUEST : Nat := OPEN_REQUEST ||| CLOSE_REQUEST ||| SEND_REQUEST ||| RECEIVE_REQUEST ||| DESTROY_REQUEST

/-- op_bitmasks::ANY_OPEN_OR_CLOSE. -/
def ANY_OPEN_OR_CLOSE : Nat := ANY_OPEN ||| ANY_CLOSE

/-- the 32-bit complement `~mask` used by the clearing operations
(`value &= ~(...)`), for masks below 2^32. -/
def compl32 (mask : Nat) : Nat := 4294967295 - mask

/-- the `backend::op_bitmasks` struct (`cpptxrx_op_backend.h` lines 36-126):
the bit-packed value tracking every category's request/accept/complete
phase.  Modelled from the spec: the per-category `disabled` lifecycle state
("Per category one of {idle, requested, accepted, completed, disabled}"),
queried by `is_disabled` and toggled by `enable_op` / `disable_op` in
`cpptxrx_factory.h`, is missing from the `cpptxrx_op_backend.h` under
`src`; it is modelled as a second bit-packed word with one bit per
category at that category's offset. -/
structure op_bitmasks where
  value : Nat
  disabled : Nat
deriving DecidableEq, Repr

/-- op_bitmasks::is_any for an ORed bit-mask argument (`cpptxrx_op_backend.h`
lines 64-67). -/
def op_bitmasks.is_any_mask (b : op_bitmasks) (options : Nat) : Bool :=
  b.value &&& options != 0

/-- op_bitmasks::is_any for a category (`cpptxrx_op_backend.h` lines 70-73). -/
def op_bitmasks.is_any_cat (b : op_bitmasks) (option : op_category_e) : Bool :=
  b.is_any_mask (REL_ALL <<< option.ofs)

/-- op_bitmasks::is_requested (`cpptxrx_op_backend.h` lines 76-79). -/
def op_bitmasks.is_requested (b : op_bitmasks) (option : op_category_e) : Bool :=
  b.value &&& (REL_REQUEST <<< option.ofs) != 0

/-- op_bitmasks::is_accepted (`cpptxrx_op_backend.h` lines 82-85). -/
def op_bitmasks.is_accepted (b : op_bitmasks) (option : op_category_e) : Bool :=
  b.value &&& (REL_ACCEPT <<< option.ofs) != 0

/-- op_bitmasks::is_complete (`cpptxrx_op_backend.h` lines 88-91). -/
def op_bitmasks.is_complete (b : op_bitmasks) (option : op_category_e) : Bool :=
  b.value &&& (REL_COMPLETE <<< option.ofs) != 0

/-- op_bitmasks::start_request (`cpptxrx_op_backend.h` lines 101-105):
clears the category's triple and sets its request bit. -/
def op_bitmasks.start_request (b : op_bitmasks) (option : op_category_e) : op_bitmasks :=
  { b with value := (b.value &&& compl32 (REL_ALL <<< option.ofs)) ||| (REL_REQUEST <<< option.ofs) }

/-- op_bitmasks::accept_request (`cpptxrx_op_backend.h` lines 108-112). -/
def op_bitmasks.accept_request (b : op_bitmasks) (option : op_category_e) : op_bitmasks :=
  { b with value := (b.value &&& compl32 (REL_ALL <<< option.ofs)) ||| (REL_ACCEPT <<< option.ofs) }

/-- op_bitmasks::complete_request (`cpptxrx_op_backend.h` lines 115-119). -/
def op_bitmasks.complete_request (b : op_bitmasks) (option : op_category_e) : op_bitmasks :=
  { b with value := (b.value &&& compl32 (REL_ALL <<< option.ofs)) ||| (REL_COMPLETE <<< option.ofs) }

/-- op_bitmasks::end_request (`cpptxrx_op_backend.h` lines 122-125). -/
def op_bitmasks.end_request (b : op_bitmasks) (option : op_category_e) : op_bitmasks :=
  { b with value := b.value &&& compl32 (REL_ALL <<< option.ofs) }

/-- Modelled from the spec: op_bitmasks::is_disabled - whether the
category is in the disabled lifecycle state (used by `transact_operation`
in `cpptxrx_factory.h` lines 908 and 931; the method body is not in the
`src` copy of `cpptxrx_op_backend.h`). -/
def op_bitmasks.is_disabled (b : op_bitmasks) (option : op_category_e) : Bool :=
  b.disabled &&& (1 <<< option.ofs) != 0

/-- Modelled from the spec: op_bitmasks::disable_op - puts the category in
the disabled lifecycle state (called for RECEIVE when a receive callback is
installed, `cpptxrx_factory.h` line 826). -/
def op_bitmasks.disable_op (b : op_bitmasks) (option : op_category_e) : op_bitmasks :=
  { b with disabled := b.disabled ||| (1 <<< option.ofs) }

/-- Modelled from the spec: op_bitmasks::enable_op - clears the category's
disabled lifecycle state (called for RECEIVE when the receive callback is
removed, `cpptxrx_factory.h` line 820). -/
def op_bitmasks.enable_op (b : op_bitmasks) (option : op_category_e) : op_bitmasks :=
  { b with disabled := b.disabled &&& compl32 (1 <<< option.ofs) }

/-! ## Operation records and common options (`cpptxrx_op_types.h`)

Only the coordination-relevant fields of the op records participate in the
dispatcher logic (absolute deadline and status; the send/receive payload
pointers are carried opaquely by the transport hooks), so the four op
records are embedded through their `common_op` part.  Times are steady
clock time points in nanoseconds (`Int`). -/

/-- the `interface::common_op` struct (`cpptxrx_op_types.h` lines 26-66):
the absolute deadline and the operation status. -/
structure common_op where
  end_time : Int
  status : status_e
deriving DecidableEq, Repr

/-- the `interface::optional_setting_update_type_e` enumeration
(`cpptxrx_op_types.h` lines 367-373). -/
inductive optional_setting_update_type_e where
  | UPDATE
  | UPDATE_AUXILIARY_1
  | USE_EXISTING
  | USE_DEFAULT
deriving DecidableEq, Repr

/-- the `interface::optional_setting` template (`cpptxrx_op_types.h` lines
376-386): a value plus how it should be applied. -/
structure optional_setting (α : Type) where
  value : α
  update_type : optional_setting_update_type_e
deriving DecidableEq, Repr

/-- optional_setting::has_update (`cpptxrx_op_types.h` lines 382-385). -/
def optional_setting.has_update {α : Type} (s : optional_setting α) : Bool :=
  s.update_type = optional_setting_update_type_e.UPDATE

/-- a `receive_callback::abstract` instance viewed by the dispatcher: only
its `is_valid()` answer participates in the coordination logic. -/
structure recv_callback_t where
  is_valid : Bool
deriving DecidableEq, Repr

/-- the `interface::common_opts` struct (`cpptxrx_op_types.h` lines
428-778) restricted to its five optional settings; the shared filter
pointers are tracked by their nullness (`Bool` = pointer is non-null) and
the callback pointer as `Option recv_callback_t`. -/
structure common_opts where
  m_timeout : optional_setting Int
  m_callback : optional_setting (Option recv_callback_t)
  m_rx_filter : optional_setting Bool
  m_tx_filter : optional_setting Bool
  m_auto_reopen_after : optional_setting Int
deriving DecidableEq, Repr

/-! ## The dispatcher state (`cpptxrx_factory.h`)

One value of `dispatcher_state` holds the coordination-relevant members of
a `threadsafe_factory` / `raw_factory` endpoint (the two classes generated
from the same file by the `CPPTXRX_THREADSAFE` switch, here the
`threadsafe` flag).  Pointer slots become `Option` values (record values
stand for the pointed-at records; the pointer-identity comparisons
`ext != trans` become value comparisons, and clearing either side models
the nulling of that pointer). -/

/-- the coordination state of one endpoint (`cpptxrx_factory.h` member
variables plus the `op_instructions transactions` of
`cpptxrx_abstract.h` / `cpptxrx_op_types.h` lines 785-791). -/
structure dispatcher_state where
  threadsafe : Bool
  m_open_status : status_e
  active_ops : op_bitmasks
  p_send_op : Option common_op
  p_recv_op : Option common_op
  p_open_op : Option common_op
  p_close_op : Option common_op
  idle_in_send_recv : Bool
  ext_p_send_op : Option common_op
  ext_p_recv_op : Option common_op
  ext_p_open_op : Option common_op
  ext_p_close_op : Option common_op
  ext_p_open_opts_set : Bool
  ext_p_open_common_opts : Option common_opts
  p_rx_callback : Option recv_callback_t
  m_common_open_opts : common_opts
  m_open_op : common_op
  auto_reopen_after : Int
  allow_auto_reopening : Bool
  m_open_opts_initialized : Bool
  rx_filter_present : Bool
  tx_filter_present : Bool
deriving DecidableEq, Repr

/-- is_open (`cpptxrx_factory.h` lines 277-283): whether `m_open_status`
equals `status_e::SUCCESS`. -/
def dispatcher_state.is_open (st : dispatcher_state) : Bool :=
  st.m_open_status.to_bool

/-- open_status (`cpptxrx_factory.h` lines 285-291). -/
def dispatcher_state.open_status (st : dispatcher_state) : status_e :=
  st.m_open_status

/-- the transaction op record of a category (the `transactions.p_*_op`
pointer slots; DESTROY and CONSTRUCT have no record). -/
def dispatcher_state.op_of (st : dispatcher_state) : op_category_e → Option common_op
  | .SEND => st.p_send_op
  | .RECEIVE => st.p_recv_op
  | .OPEN => st.p_open_op
  | .CLOSE => st.p_close_op
  | .DESTROY => none
  | .CONSTRUCT => none

/-- writes through the transaction op pointer of a category (a store to
`*op_ptr` in the source). -/
def dispatcher_state.write_op (st : dispatcher_state) (cat : op_category_e) (op : common_op) :
    dispatcher_state :=
  match cat with
  | .SEND => { st with p_send_op := some op }
  | .RECEIVE => { st with p_recv_op := some op }
  | .OPEN => { st with p_open_op := some op }
  | .CLOSE => { st with p_close_op := some op }
  | .DESTROY => st
  | .CONSTRUCT => st

/-! ## end_transaction (`cpptxrx_factory.h` lines 745-872)

Called by the management loop for each of the four op categories after the
hook phase.  An operation still `is_operating` is first checked for a
deadline overrun (writing `TIMED_OUT`) and, for send/receive/close, for
the endpoint no longer being open (writing `NOT_OPEN`); otherwise the call
returns and the op keeps waiting.  A no-longer-operating op is then ended:
its pointers are cleared, category-specific completion work runs, and the
request is marked complete. -/

/-- the SEND ending of `end_transaction` (`cpptxrx_factory.h` lines
776-783 and 866-867): with a send filter installed the filter manager owns
the requests and nothing further happens; otherwise both send op pointers
are cleared and the SEND request completed. -/
def end_transaction_send_finish (st : dispatcher_state) : dispatcher_state :=
  if st.tx_filter_present then st
  else
    let st2 := { st with p_send_op := none, ext_p_send_op := none }
    { st2 with active_ops := st2.active_ops.complete_request .SEND }

/-- the RECEIVE ending of `end_transaction` (`cpptxrx_factory.h` lines
784-794 and 866-867): with a receive filter installed nothing further
happens; otherwise the receive op pointers are cleared and the RECEIVE
request is completed unless a receive callback drives receives
(threadsafe only). -/
def end_transaction_receive_finish (st : dispatcher_state) : dispatcher_state :=
  if st.rx_filter_present then st
  else
    let complete_operation : Bool := if st.threadsafe then st.p_rx_callback.isNone else true
    let st2 := { st with p_recv_op := none, ext_p_recv_op := none }
    if complete_operation then
      { st2 with active_ops := st2.active_ops.complete_request .RECEIVE }
    else st2

/-- the receive-callback installation of the OPEN ending
(`cpptxrx_factory.h` lines 811-829, threadsafe only): a pending callback
update installs the callback and disables the external RECEIVE category
when the new value is a valid callback, and removes the callback and
enables the category when it is null or invalid. -/
def install_callback_setting (st : dispatcher_state) : dispatcher_state :=
  if st.threadsafe ∧ st.m_common_open_opts.m_callback.has_update then
    match st.m_common_open_opts.m_callback.value with
    | some cb =>
      if cb.is_valid then
        { st with p_rx_callback := some cb,
                  active_ops := st.active_ops.disable_op .RECEIVE }
      else
        { st with p_rx_callback := none,
                  active_ops := st.active_ops.enable_op .RECEIVE }
    | none =>
      { st with p_rx_callback := none,
                active_ops := st.active_ops.enable_op .RECEIVE }
  else st

/-- the filter installation of the OPEN ending (`cpptxrx_factory.h` lines
831-837): pending receive/send filter updates replace the filter manager
contents (tracked here by the non-nullness of the new filter pointers). -/
def install_filter_settings (st : dispatcher_state) : dispatcher_state :=
  let stb :=
    if st.m_common_open_opts.m_rx_filter.has_update then
      { st with rx_filter_present := st.m_common_open_opts.m_rx_filter.value }
    else st
  if stb.m_common_open_opts.m_tx_filter.has_update then
    { stb with tx_filter_present := stb.m_common_open_opts.m_tx_filter.value }
  else stb

/-- the OPEN ending of `end_transaction` (`cpptxrx_factory.h` lines
795-846 and 866-867): a new auto-reopen interval is installed (threadsafe
only); when the open succeeded or auto reopening is enabled the common
open options are applied (the callback and filter installations above);
finally the op's final status becomes `m_open_status`, the open pointer
slots are cleared and the OPEN request is completed. -/
def end_transaction_open_finish (final_status : status_e) (st : dispatcher_state) : dispatcher_state :=
  let new_auto_reopen_after :=
    if st.threadsafe ∧ st.m_common_open_opts.m_auto_reopen_after.has_update then
      st.m_common_open_opts.m_auto_reopen_after.value
    else st.auto_reopen_after
  let st2 := { st with auto_reopen_after := new_auto_reopen_after }
  let st3 :=
    if final_status.value = SUCCESS ∨ (st.threadsafe ∧ 0 ≤ new_auto_reopen_after) then
      install_filter_settings (install_callback_setting st2)
    else st2
  let st4 := { st3 with m_open_status := final_status,
                        p_open_op := none, ext_p_open_op := none,
                        ext_p_open_common_opts := none, ext_p_open_opts_set := false }
  { st4 with active_ops := st4.active_ops.complete_request .OPEN }

/-- the CLOSE ending of `end_transaction` (`cpptxrx_factory.h` lines
847-854 and 866-867): a successful close of an open endpoint forces
`m_open_status` to `NOT_OPEN`; the close pointer slots are cleared and the
CLOSE request completed. -/
def end_transaction_close_finish (final_status : status_e) (st : dispatcher_state) : dispatcher_state :=
  let st2 :=
    if final_status.value = SUCCESS ∧ st.m_open_status.value = SUCCESS then
      { st with m_open_status := ⟨NOT_OPEN, none⟩ }
    else st
  let st3 := { st2 with p_close_op := none, ext_p_close_op := none }
  { st3 with active_ops := st3.active_ops.complete_request .CLOSE }

/-- end_transaction (`cpptxrx_factory.h` lines 745-872).  `now` is the
current steady-clock time used by the deadline check.  An operation still
`is_operating` is checked for a deadline overrun (final status
`TIMED_OUT`) and, for send/receive/close, for the endpoint no longer
being open (final status `NOT_OPEN`); otherwise the call returns with the
op still pending.  The final status is written through the op pointer and
the category's ending (the switch, translated as the helper functions
above) runs. -/
def end_transaction (cat : op_category_e) (now : Int) (st : dispatcher_state) : dispatcher_state :=
  match st.op_of cat with
  | none => st
  | some op =>
    if op.status.is_operating ∧ ¬(op.end_time < now) ∧
       ¬(st.m_open_status.value ≠ SUCCESS ∧ (cat = .SEND ∨ cat = .RECEIVE ∨ cat = .CLOSE)) then
      st
    else
      let final_status : status_e :=
        if op.status.is_operating then
          if op.end_time < now then ⟨TIMED_OUT, none⟩ else ⟨NOT_OPEN, none⟩
        else op.status
      let st1 := st.write_op cat { op with status := final_status }
      match cat with
      | .SEND => end_transaction_send_finish st1
      | .RECEIVE => end_transaction_receive_finish st1
      | .OPEN => end_transaction_open_finish final_status st1
      | .CLOSE => end_transaction_close_finish final_status st1
      | .DESTROY => st1
      | .CONSTRUCT => st1

/-! ## The public front door: transact_operation (`cpptxrx_factory.h` lines 896-1057)

Every public `open` / `reopen` / `close` / `send` / `receive` call builds
an op record and enters `transact_operation`.  In the threadsafe variant
the call first waits (up to the op deadline, returning `TIMED_OUT`) for
the wait predicate below; the subsequent early-out checks and the request
installation run under the lock and are embedded as `transact_checks`. -/

/-- the request that a public call hands to `transact_operation`: the op
category with its record, for open the extra arguments gathered by
`open_and_reopen_pattern` (`cpptxrx_factory.h` lines 403-424 and 490-496). -/
structure open_front_args where
  /-- true for `CLOSE_FIRST_IF_ALREADY_OPEN` (reopen), false for
  `FAIL_TO_OPEN_IF_ALREADY_OPEN` (open). -/
  open_behaviour_close_first : Bool
  /-- whether connection-specific `opts` were passed (`p_opts_open_args != nullptr`). -/
  p_opts_present : Bool
  /-- the common open options passed, `none` = `nullptr`. -/
  p_common_opts : Option common_opts
  /-- the `open_op` record prepared on the caller's frame. -/
  op_rec : common_op
deriving DecidableEq, Repr

/-- a `transact_operation` request (category plus the caller's op data). -/
inductive transact_request where
  | send (op : common_op)
  | recv (op : common_op)
  | close (op : common_op)
  | open_request (a : open_front_args)
deriving DecidableEq, Repr

/-- the category of a transact request. -/
def transact_request.category : transact_request → op_category_e
  | .send _ => .SEND
  | .recv _ => .RECEIVE
  | .close _ => .CLOSE
  | .open_request _ => .OPEN

/-- the wait predicate of the threadsafe front door (`cpptxrx_factory.h`
lines 904-924): stop waiting on destruction or when the category is
disabled; stop waiting for send/receive/close when the endpoint is not
open; keep waiting while an open or close is in flight; otherwise stop
waiting when no operation of the same category is pending. -/
def transact_wait_predicate (st : dispatcher_state) (cat : op_category_e) : Bool :=
  if st.active_ops.is_any_mask ANY_DESTROY || st.active_ops.is_disabled cat then true
  else if st.m_open_status.value ≠ SUCCESS ∧ (cat = .RECEIVE ∨ cat = .SEND ∨ cat = .CLOSE) then true
  else if st.active_ops.is_any_mask ANY_OPEN_OR_CLOSE then false
  else !(st.active_ops.is_any_cat cat)

/-- the checks and request installation of `transact_operation` after the
wait (`cpptxrx_factory.h` lines 928-1023), returning the early status
(`some`) or `none` when the request was installed and started.  In order:
any destruction in flight cancels (`CANCELED_IN_DESTROY`); a disabled
category returns `DISABLED`; send/receive/close on a non-open endpoint
return `NOT_OPEN`; `open` fails on an already-open endpoint
(`FAILED_ALREADY_OPEN` unless reopening), with no arguments and no prior
arguments (`NO_PRIOR_OPEN_ARGS`), or with an invalid callback argument
(`INVALID_ARG_RECV_CALLBACK_FUNC` threadsafe /
`RECV_CALLBACK_NOT_VALID_IN_RAW` raw, both also written to
`m_open_status`); otherwise the ext pointer slots are filled and
`start_request` marks the category requested. -/
def transact_checks (req : transact_request) (st : dispatcher_state) :
    Option Int × dispatcher_state :=
  if st.active_ops.is_any_mask ANY_DESTROY then (some CANCELED_IN_DESTROY, st)
  else if st.active_ops.is_disabled req.category then (some DISABLED, st)
  else
    match req with
    | .recv op =>
      if st.m_open_status.value ≠ SUCCESS then (some NOT_OPEN, st)
      else
        let st1 := { st with ext_p_recv_op := some op }
        (none, { st1 with active_ops := st1.active_ops.start_request .RECEIVE })
    | .send op =>
      if st.m_open_status.value ≠ SUCCESS then (some NOT_OPEN, st)
      else
        let st1 := { st with ext_p_send_op := some op }
        (none, { st1 with active_ops := st1.active_ops.start_request .SEND })
    | .close op =>
      if st.m_open_status.value ≠ SUCCESS then (some NOT_OPEN, st)
      else
        let st1 := { st with ext_p_close_op := some op }
        (none, { st1 with active_ops := st1.active_ops.start_request .CLOSE })
    | .open_request a =>
      if ¬a.open_behaviour_close_first ∧ st.m_open_status.value = SUCCESS then
        (some FAILED_ALREADY_OPEN, st)
      else if ¬a.p_opts_present ∧ ¬st.m_open_opts_initialized then
        (some NO_PRIOR_OPEN_ARGS, st)
      else
        let bad_cb_threadsafe : Bool :=
          match a.p_common_opts with
          | some co =>
            co.m_callback.has_update &&
            (match co.m_callback.value with
             | some cb => !cb.is_valid
             | none => false)
          | none => false
        let bad_cb_raw : Bool :=
          match a.p_common_opts with
          | some co => co.m_callback.has_update && co.m_callback.value.isSome
          | none => false
        if st.threadsafe ∧ bad_cb_threadsafe then
          (some INVALID_ARG_RECV_CALLBACK_FUNC,
           { st with m_open_status := ⟨INVALID_ARG_RECV_CALLBACK_FUNC, none⟩ })
        else if ¬st.threadsafe ∧ bad_cb_raw then
          (some RECV_CALLBACK_NOT_VALID_IN_RAW,
           { st with m_open_status := ⟨RECV_CALLBACK_NOT_VALID_IN_RAW, none⟩ })
        else
          let st1 := { st with
            ext_p_open_common_opts := some (a.p_common_opts.getD st.m_common_open_opts),
            ext_p_open_opts_set := true,
            ext_p_open_op := some a.op_rec }
          (none, { st1 with active_ops := st1.active_ops.start_request .OPEN })

/-! ## destroy (`cpptxrx_factory.h` lines 115-147) and the management loop -/

/-- the state-changing entry of `destroy`: when any destruction is already
in flight the call only waits for the destroy-completed bit (threadsafe)
or returns at once (raw) - `none`, no state change; otherwise the first
caller starts the DESTROY request (`some` the new state). -/
def destroy_begin (st : dispatcher_state) : Option dispatcher_state :=
  if st.active_ops.is_any_mask ANY_DESTROY then none
  else some { st with active_ops := st.active_ops.start_request .DESTROY }

/-- check_and_process_destruction_in_single_op (`cpptxrx_factory.h` lines
505-517): when a destroy is requested the management task accepts it and
forces `m_open_status` to `NOT_OPEN` (the loop then exits and the
management thread runs `destruct` and completes the DESTROY request);
`none` when no destroy was requested. -/
def check_and_process_destruction (st : dispatcher_state) : Option dispatcher_state :=
  if st.active_ops.is_requested .DESTROY then
    some { st with active_ops := st.active_ops.accept_request .DESTROY,
                   m_open_status := ⟨NOT_OPEN, none⟩ }
  else none

/-- the three transport hooks a management step may invoke. -/
inductive hook_e where
  | process_close
  | process_open
  | process_send_receive
deriving DecidableEq, Repr

/-- the transaction block of `single_operation` (`cpptxrx_factory.h` lines
712-735): the hooks the step invokes, in order - `process_close` when a
close op is pending, else `process_open` when an open op is pending, else
`process_send_receive` when a send op, a receive op, or
`idle_in_send_recv` is pending. -/
def transaction_dispatch (st : dispatcher_state) : List hook_e :=
  if st.p_close_op.isSome then [hook_e.process_close]
  else if st.p_open_op.isSome then [hook_e.process_open]
  else if st.p_send_op.isSome || st.p_recv_op.isSome || st.idle_in_send_recv then
    [hook_e.process_send_receive]
  else []

/-- the send-pointer adoption of `single_operation` (`cpptxrx_factory.h`
lines 625-631): without a send filter manager, a changed ext send op
pointer is adopted into `transactions`. -/
def adopt_send_ptr (st : dispatcher_state) : dispatcher_state :=
  if ¬st.tx_filter_present ∧ st.ext_p_send_op ≠ st.p_send_op then
    { st with p_send_op := st.ext_p_send_op }
  else st

/-- the receive-pointer adoption of `single_operation` (`cpptxrx_factory.h`
lines 656-660). -/
def adopt_recv_ptr (st : dispatcher_state) : dispatcher_state :=
  if ¬st.rx_filter_present ∧ st.ext_p_recv_op ≠ st.p_recv_op then
    { st with p_recv_op := st.ext_p_recv_op }
  else st

/-- the open-pointer adoption of `single_operation` (`cpptxrx_factory.h`
lines 662-666). -/
def adopt_open_ptr (st : dispatcher_state) : dispatcher_state :=
  if st.ext_p_open_op ≠ st.p_open_op then { st with p_open_op := st.ext_p_open_op } else st

/-- the close-pointer adoption of `single_operation` (`cpptxrx_factory.h`
lines 667-671). -/
def adopt_close_ptr (st : dispatcher_state) : dispatcher_state :=
  if st.ext_p_close_op ≠ st.p_close_op then { st with p_close_op := st.ext_p_close_op } else st

/-- the SEND acceptance of `single_operation` (`cpptxrx_factory.h` lines
675-676). -/
def accept_send_request (st : dispatcher_state) : dispatcher_state :=
  if st.active_ops.is_requested .SEND then
    { st with active_ops := st.active_ops.accept_request .SEND }
  else st

/-- the RECEIVE acceptance of `single_operation` (`cpptxrx_factory.h`
lines 677-678). -/
def accept_recv_request (st : dispatcher_state) : dispatcher_state :=
  if st.active_ops.is_requested .RECEIVE then
    { st with active_ops := st.active_ops.accept_request .RECEIVE }
  else st

/-- the CLOSE acceptance of `single_operation` (`cpptxrx_factory.h` lines
679-685): accepting a close disables auto reopening (threadsafe only). -/
def accept_close_request (st : dispatcher_state) : dispatcher_state :=
  if st.active_ops.is_requested .CLOSE then
    { st with allow_auto_reopening := if st.threadsafe then false else st.allow_auto_reopening,
              active_ops := st.active_ops.accept_request .CLOSE }
  else st

/-- the OPEN acceptance of `single_operation` (`cpptxrx_factory.h` lines
686-703): accepting an open enables auto reopening (threadsafe only),
marks the open opts initialized and saves the newly passed open settings
before accepting the request. -/
def accept_open_request (st : dispatcher_state) : dispatcher_state :=
  if st.active_ops.is_requested .OPEN then
    { st with allow_auto_reopening := if st.threadsafe then true else st.allow_auto_reopening,
              m_open_opts_initialized := true,
              m_common_open_opts := st.ext_p_open_common_opts.getD st.m_common_open_opts,
              m_open_op := st.ext_p_open_op.getD st.m_open_op,
              active_ops := st.active_ops.accept_request .OPEN }
  else st

/-- the ext-to-transactions pointer adoption and request-acceptance block
of `single_operation` (`cpptxrx_factory.h` lines 611-704, the branches in
which no filter manager intercepts the send/receive slots): new ext op
pointers are adopted into `transactions`, then, when any request is
pending, every requested category is accepted. -/
def adopt_and_accept (st : dispatcher_state) : dispatcher_state :=
  let s4 := adopt_close_ptr (adopt_open_ptr (adopt_recv_ptr (adopt_send_ptr st)))
  if s4.active_ops.is_any_mask ANY_REQUEST then
    accept_open_request (accept_close_request (accept_recv_request (accept_send_request s4)))
  else s4

/-- the auto-reopen block of `single_operation` (`cpptxrx_factory.h` lines
566-598, threadsafe only): with no active transactions, auto reopening
allowed and enabled, the endpoint not open and open opts initialized, and
no other request arriving during the wait, a synthetic open request is
installed from the last-used settings (`end_time` is the resolved open
timeout). -/
def auto_reopen_step (end_time : Int) (st : dispatcher_state) : dispatcher_state :=
  if st.threadsafe ∧
     st.ext_p_send_op = none ∧ st.ext_p_recv_op = none ∧
     st.ext_p_close_op = none ∧ st.ext_p_open_op = none ∧
     st.allow_auto_reopening ∧ st.m_open_status.value ≠ SUCCESS ∧
     st.m_open_opts_initialized ∧ 0 ≤ st.auto_reopen_after ∧
     st.active_ops.is_any_mask ANY_REQUEST = false then
    { st with
      ext_p_open_opts_set := true,
      ext_p_open_common_opts := some st.m_common_open_opts,
      ext_p_open_op := some ⟨end_time, ⟨START_NEW_OP, none⟩⟩,
      m_open_op := ⟨end_time, ⟨START_NEW_OP, none⟩⟩,
      active_ops := st.active_ops.start_request .OPEN }
  else st

/-- a transport hook writing the outcome status into the op record it was
handed (`process_open` / `process_close` / `process_send_receive` end the
op via `end_op` / `end_op_with_error_code`; the written status is
adversarial). -/
def hook_write (cat : op_category_e) (s : status_e) (st : dispatcher_state) : dispatcher_state :=
  match st.op_of cat with
  | none => st
  | some op => st.write_op cat { op with status := s }

/-- one observable action of the coordination engine on the dispatcher
state: a transport hook writing an op outcome, an `end_transaction` call,
the destruction acceptance, a public front-door call, the pointer
adoption/acceptance block, or an auto-reopen installation.  These are the
code regions of `cpptxrx_factory.h` that write `m_open_status`, the op
lifecycle bits and the op pointer slots. -/
inductive mgmt_event where
  | hook_result (cat : op_category_e) (s : status_e)
  | finish (cat : op_category_e) (now : Int)
  | accept_destroy
  | front_door (req : transact_request)
  | adopt
  | auto_reopen (end_time : Int)
deriving DecidableEq, Repr

/-- the state transition of one management event. -/
def mgmt_step (st : dispatcher_state) (e : mgmt_event) : dispatcher_state :=
  match e with
  | .hook_result cat s => hook_write cat s st
  | .finish cat now => end_transaction cat now st
  | .accept_destroy => (check_and_process_destruction st).getD st
  | .front_door req => (transact_checks req st).2
  | .adopt => adopt_and_accept st
  | .auto_reopen t => auto_reopen_step t st

/-- whether an event is an `end_transaction` call that completes an open
operation whose final status is `SUCCESS` (the only dispatcher transition
that can set `m_open_status` to `SUCCESS`). -/
def successful_open_finish (st : dispatcher_state) (e : mgmt_event) : Bool :=
  match e with
  | .finish .OPEN _ =>
    match st.p_open_op with
    | some op => op.status.value = SUCCESS
    | none => false
  | _ => false

/-- no event of the list, run from the given state, is a successful open
completion. -/
def no_successful_open : dispatcher_state → List mgmt_event → Bool
  | _, [] => true
  | st, e :: evs => !successful_open_finish st e && no_successful_open (mgmt_step st e) evs

/-- whether an event is an `end_transaction` call ending an open operation
while a callback-removing common-opts update (a null or invalid callback
value) is pending - the only dispatcher transition that can clear the
RECEIVE disabled state (`active_ops.enable_op`). -/
def callback_removal_finish (st : dispatcher_state) (e : mgmt_event) : Bool :=
  match e with
  | .finish .OPEN _ =>
    st.p_open_op.isSome && st.m_common_open_opts.m_callback.has_update &&
    (match st.m_common_open_opts.m_callback.value with
     | some cb => !cb.is_valid
     | none => true)
  | _ => false

/-- no event of the list, run from the given state, ends an open operation
with a callback-removing update pending. -/
def no_callback_removal : dispatcher_state → List mgmt_event → Bool
  | _, [] => true
  | st, e :: evs => !callback_removal_finish st e && no_callback_removal (mgmt_step st e) evs

/-! ## Sample values used by concrete witnesses -/

/-- a `common_opts` value with every setting at `USE_EXISTING` (the
default-constructed `common_opts{}`). -/
def default_common_opts : common_opts :=
  ⟨⟨0, .USE_EXISTING⟩, ⟨none, .USE_EXISTING⟩, ⟨false, .USE_EXISTING⟩,
   ⟨false, .USE_EXISTING⟩, ⟨-1, .USE_EXISTING⟩⟩

/-- a concrete open threadsafe endpoint state with no operation in flight,
used to instantiate theorems at explicit inputs. -/
def base_state : dispatcher_state where
  threadsafe := true
  m_open_status := ⟨SUCCESS, none⟩
  active_ops := ⟨0, 0⟩
  p_send_op := none
  p_recv_op := none
  p_open_op := none
  p_close_op := none
  idle_in_send_recv := false
  ext_p_send_op := none
  ext_p_recv_op := none
  ext_p_open_op := none
  ext_p_close_op := none
  ext_p_open_opts_set := false
  ext_p_open_common_opts := none
  p_rx_callback := none
  m_common_open_opts := default_common_opts
  m_open_op := ⟨0, ⟨START_NEW_OP, none⟩⟩
  auto_reopen_after := -1
  allow_auto_reopening := false
  m_open_opts_initialized := true
  rx_filter_present := false
  tx_filter_present := false

/-- a two-filter chain head for concrete planner runs: a
`NEVER_USE_INPUT_MEMORY_AS_OUTPUT` filter with `max_packet_size = 1500`
(slot state as left by construction / a forward pass with no upstream). -/
def c7_head : fchain :=
  .base 0 1500 .NEVER_USE_INPUT_MEMORY_AS_OUTPUT (.local_input 0) (.local_output 0)

/-- a two-filter chain tail for concrete planner runs: an
`ALLOW_REUSE_OF_INPUT_MEMORY_AS_OUTPUT` filter with `max_packet_size = 1500`
(slot state as left by a forward pass reusing the head's output slot). -/
def c7_tail : fchain :=
  .base 1 1500 .ALLOW_REUSE_OF_INPUT_MEMORY_AS_OUTPUT (.local_output 0) (.local_output 0)

/-! ## Bit-level helper lemmas for the op bitmask -/

theorem ne_zero_of_testBit {x : Nat} {i : Nat} (h : x.testBit i = true) : x ≠ 0 := by
  intro hx
  rw [hx, Nat.zero_testBit] at h
  exact Bool.false_ne_true h

theorem land_ne_zero_of_testBit {x y : Nat} {i : Nat}
    (hx : x.testBit i = true) (hy : y.testBit i = true) : x &&& y ≠ 0 := by
  apply ne_zero_of_testBit (i := i)
  rw [Nat.testBit_land, hx, hy]
  rfl

theorem testBit_of_land_two_pow {x : Nat} {i : Nat} (h : x &&& 2 ^ i ≠ 0) :
    x.testBit i = true := by
  by_contra hb
  apply h
  apply Nat.eq_of_testBit_eq
  intro j
  rw [Nat.testBit_land, Nat.zero_testBit]
  by_cases hj : j = i
  · subst hj
    simp [Bool.eq_false_iff.mpr hb]
  · rw [Nat.testBit_two_pow_of_ne (fun he => hj he.symm)]
    simp

theorem land_distrib_lor (a b c : Nat) : (a ||| b) &&& c = (a &&& c) ||| (b &&& c) := by
  apply Nat.eq_of_testBit_eq
  intro i
  simp [Nat.testBit_land, Nat.testBit_lor, Bool.and_or_distrib_right]

/-- a clear-then-set update leaves every bit selected by a mask untouched
when the cleared and set constants avoid the mask. -/
theorem mask_untouched (v : Nat) {c s m : Nat}
    (h1 : compl32 c &&& m = m) (h2 : s &&& m = 0) :
    ((v &&& compl32 c) ||| s) &&& m = v &&& m := by
  rw [land_distrib_lor, h2, Nat.land_assoc, h1]
  simp

/-! ## C10 - status error codes and conversions -/

/-- C10 counterexample: the claim quantifies over every unsigned code, but
the code 2^31 wraps to a negative `int`, so the status does not convert to
`SEE_ERROR_CODE` and `get_error_code` returns 0, not 2^31. -/
theorem C10_counterexample :
    ((status_e.of_standard START_NEW_OP).set_error_code 2147483648 "X").to_standard ≠ SEE_ERROR_CODE ∧
    ((status_e.of_standard START_NEW_OP).set_error_code 2147483648 "X").get_error_code = 0 ∧
    (0 : Nat) ≠ 2147483648 := by
  refine ⟨?_, by decide, by decide⟩
  decide

/-- C10 (amended): for every unsigned code `n < 2^31`, after
`set_error_code(n, label)` the status converts to `SEE_ERROR_CODE` and
`get_error_code()` returns `n`; and every standard (negative-valued)
status has `get_error_code() = 0` and converts to `true` as a bool exactly
when it is `SUCCESS`. -/
theorem C10_error_code_roundtrip (s : status_e) (n : Nat) (lbl : String)
    (hn : n < 2147483648) :
    ((s.set_error_code n lbl).to_standard = SEE_ERROR_CODE ∧
     (s.set_error_code n lbl).get_error_code = n) ∧
    ∀ t : status_e, t.value < 0 →
      (t.get_error_code = 0 ∧ (t.to_bool = true ↔ t.value = SUCCESS)) := by
  constructor
  · have hmod : n % 4294967296 = n := Nat.mod_eq_of_lt (by omega)
    have hval : (s.set_error_code n lbl).value = (n : Int) := by
      simp [status_e.set_error_code, int32_of_uint32, hmod, hn]
    constructor
    · simp [status_e.to_standard, hval]
    · simp [status_e.get_error_code, hval]
  · intro t ht
    refine ⟨?_, ?_⟩
    · simp [status_e.get_error_code]
      omega
    · simp [status_e.to_bool]

/-- C10 witness: the amended theorem applied at code 5. -/
theorem C10_error_code_roundtrip_witness :
    (5 < 2147483648) ∧
    ((((status_e.of_standard START_NEW_OP).set_error_code 5 "EBADX").to_standard = SEE_ERROR_CODE ∧
      ((status_e.of_standard START_NEW_OP).set_error_code 5 "EBADX").get_error_code = 5) ∧
     ∀ t : status_e, t.value < 0 →
       (t.get_error_code = 0 ∧ (t.to_bool = true ↔ t.value = SUCCESS))) :=
  ⟨by decide, C10_error_code_roundtrip (status_e.of_standard START_NEW_OP) 5 "EBADX" (by decide)⟩

/-! ## C9 - storage_abstract_t::append -/

/-- C9: `storage_abstract_t::append` returns false and leaves the slot's
size and previously stored bytes unchanged whenever the data would not fit
(`size + n > max_size`) or a null pointer is involved; otherwise it
returns true, writes exactly the appended bytes after the existing
contents and increases the size by exactly their count.  The buffer
invariant of the concrete storage (`storage_t<N>`) is that the underlying
array's length equals `max_size`. -/
theorem C9_storage_append (st : storage_abstract_t) (buf : List Nat) (l : List Nat)
    (hbuf : st.data = some buf) (hlen : buf.length = st.max_size) (hsz : st.size ≤ st.max_size) :
    ((st.append none).1 = false ∧ (st.append none).2 = st) ∧
    (st.size + l.length > st.max_size →
      (st.append (some l)).1 = false ∧ (st.append (some l)).2 = st) ∧
    (st.size + l.length ≤ st.max_size →
      (st.append (some l)).1 = true ∧
      (st.append (some l)).2.size = st.size + l.length ∧
      (st.append (some l)).2.max_size = st.max_size ∧
      ∃ buf' : List Nat, (st.append (some l)).2.data = some buf' ∧
        buf'.take st.size = buf.take st.size ∧
        (buf'.drop st.size).take l.length = l) := by
  obtain ⟨ms, d, sz⟩ := st
  simp only at hbuf hlen hsz ⊢
  subst hbuf
  refine ⟨⟨rfl, rfl⟩, ?_, ?_⟩
  · intro hover
    simp only [storage_abstract_t.append]
    rw [if_pos (by simpa using hover)]
    exact ⟨rfl, rfl⟩
  · intro hfit
    simp only [storage_abstract_t.append]
    rw [if_neg (by simpa using Nat.not_lt.mpr hfit)]
    refine ⟨rfl, rfl, rfl, buf.take sz ++ l ++ buf.drop (sz + l.length), rfl, ?_, ?_⟩
    · have htk : (buf.take sz).length = sz := by
        simp
        omega
      rw [List.append_assoc, List.take_left' htk]
    · have htk : (buf.take sz).length = sz := by
        simp
        omega
      rw [List.append_assoc, List.drop_left' htk, List.take_left' rfl]

/-- C9 witness: the append theorem applied to a concrete 4-byte slot
holding 2 bytes, appending 2 more. -/
theorem C9_storage_append_witness :
    ((⟨4, some [7, 8, 0, 0], 2⟩ : storage_abstract_t).data = some [7, 8, 0, 0] ∧
     ([7, 8, 0, 0] : List Nat).length = 4 ∧ 2 ≤ 4) ∧
    (((⟨4, some [7, 8, 0, 0], 2⟩ : storage_abstract_t).append none).1 = false ∧
     ((⟨4, some [7, 8, 0, 0], 2⟩ : storage_abstract_t).append none).2 = ⟨4, some [7, 8, 0, 0], 2⟩) ∧
    (2 + ([9, 10] : List Nat).length > 4 →
      ((⟨4, some [7, 8, 0, 0], 2⟩ : storage_abstract_t).append (some [9, 10])).1 = false ∧
      ((⟨4, some [7, 8, 0, 0], 2⟩ : storage_abstract_t).append (some [9, 10])).2 = ⟨4, some [7, 8, 0, 0], 2⟩) ∧
    (2 + ([9, 10] : List Nat).length ≤ 4 →
      ((⟨4, some [7, 8, 0, 0], 2⟩ : storage_abstract_t).append (some [9, 10])).1 = true ∧
      ((⟨4, some [7, 8, 0, 0], 2⟩ : storage_abstract_t).append (some [9, 10])).2.size = 2 + ([9, 10] : List Nat).length ∧
      ((⟨4, some [7, 8, 0, 0], 2⟩ : storage_abstract_t).append (some [9, 10])).2.max_size = 4 ∧
      ∃ buf' : List Nat, ((⟨4, some [7, 8, 0, 0], 2⟩ : storage_abstract_t).append (some [9, 10])).2.data = some buf' ∧
        buf'.take 2 = ([7, 8, 0, 0] : List Nat).take 2 ∧
        (buf'.drop 2).take ([9, 10] : List Nat).length = [9, 10]) :=
  ⟨⟨rfl, rfl, by decide⟩,
   C9_storage_append ⟨4, some [7, 8, 0, 0], 2⟩ [7, 8, 0, 0] [9, 10] rfl rfl (by decide)⟩

/-! ## C6 - the process wrapper of filter::base_class -/

/-- C6: for every filter body wrapped by `filter::base_class::process`, a
call made while the output handle is already live returns `Continue`
without invoking the body (the returned handles are the untouched inputs,
whatever the body would do); and whenever the body runs and returns
`Continue` (not aborted) while the input handle is still live afterwards,
the wrapper replaces the result with `FORCE_TO_KEEP_PROCESSING`. -/
theorem C6_process_wrapper (ri : restrict_inputs_e) (name : String)
    (body : data_handle → data_handle → result_e × data_handle × data_handle)
    (input output : data_handle) :
    (output.live = true →
      base_process ri name body input output = (⟨.CONTINUE, none⟩, input, output)) ∧
    (¬(ri = .ONLY_VALID ∧ input.live = false) → output.live = false →
      (body input output).1.value = .CONTINUE →
      ((body input output).2.1).live = true →
      (base_process ri name body input output).1 = ⟨.FORCE_TO_KEEP_PROCESSING, none⟩) := by
  constructor
  · intro hout
    unfold base_process
    by_cases hskip : ri = .ONLY_VALID ∧ input.live = false
    · rw [if_pos hskip]
    · rw [if_neg hskip, if_pos hout]
  · intro hskip hout hcont hlive
    unfold base_process
    rw [if_neg hskip, if_neg (by simp [hout])]
    have habort : ((body input output).1).is_aborted = false := by
      unfold result_e.is_aborted
      rw [hcont]
      decide
    simp only [habort, Bool.false_eq_true, if_false, hlive, if_true]

/-- C6 witness: the wrapper theorem applied to a concrete body that
returns `CONTINUE` and keeps its input live, with a dead output handle. -/
theorem C6_process_wrapper_witness :
    ((⟨false, 2⟩ : data_handle).live = true →
      base_process .ONLY_VALID "f" (fun i o => (⟨.CONTINUE, none⟩, i, o)) ⟨false, 3⟩ ⟨false, 2⟩ =
        (⟨.CONTINUE, none⟩, ⟨false, 3⟩, ⟨false, 2⟩)) ∧
    (¬(restrict_inputs_e.ONLY_VALID = .ONLY_VALID ∧ (⟨false, 3⟩ : data_handle).live = false) →
      (⟨true, 0⟩ : data_handle).live = false →
      ((fun (i o : data_handle) => ((⟨.CONTINUE, none⟩ : result_e), i, o)) ⟨false, 3⟩ ⟨true, 0⟩).1.value = .CONTINUE →
      (((fun (i o : data_handle) => ((⟨.CONTINUE, none⟩ : result_e), i, o)) ⟨false, 3⟩ ⟨true, 0⟩).2.1).live = true →
      (base_process .ONLY_VALID "f" (fun i o => (⟨.CONTINUE, none⟩, i, o)) ⟨false, 3⟩ ⟨true, 0⟩).1 =
        ⟨.FORCE_TO_KEEP_PROCESSING, none⟩) :=
  ⟨(C6_process_wrapper .ONLY_VALID "f" (fun i o => (⟨.CONTINUE, none⟩, i, o)) ⟨false, 3⟩ ⟨false, 2⟩).1,
   (C6_process_wrapper .ONLY_VALID "f" (fun i o => (⟨.CONTINUE, none⟩, i, o)) ⟨false, 3⟩ ⟨true, 0⟩).2⟩

/-! ## C5 - hook dispatch priority of single_operation -/

/-- C5: within one management step the transaction block invokes at most
one transport hook, and the choice follows the fixed priority:
`process_close` iff a close op is pending; else `process_open` iff an open
op is pending; else `process_send_receive` iff a send op, a receive op, or
`idle_in_send_recv` is pending. -/
theorem C5_dispatch_priority (st : dispatcher_state) :
    (transaction_dispatch st).length ≤ 1 ∧
    (transaction_dispatch st = [hook_e.process_close] ↔ st.p_close_op.isSome = true) ∧
    (transaction_dispatch st = [hook_e.process_open] ↔
      (st.p_close_op = none ∧ st.p_open_op.isSome = true)) ∧
    (transaction_dispatch st = [hook_e.process_send_receive] ↔
      (st.p_close_op = none ∧ st.p_open_op = none ∧
       (st.p_send_op.isSome = true ∨ st.p_recv_op.isSome = true ∨ st.idle_in_send_recv = true))) := by
  unfold transaction_dispatch
  rcases hc : st.p_close_op with _ | cop <;>
    rcases ho : st.p_open_op with _ | oop <;>
      simp <;>
        rcases hs : st.p_send_op with _ | sop <;>
          rcases hr : st.p_recv_op with _ | rop <;>
            rcases hi : st.idle_in_send_recv with _ | _ <;>
              simp

/-! ## C7 - the backward storage pass -/

/-- C7 counterexample: in the chain `c7_head.then(c7_tail)` (head
`NEVER_USE_INPUT_MEMORY_AS_OUTPUT`, tail
`ALLOW_REUSE_OF_INPUT_MEMORY_AS_OUTPUT`, both with `max_packet_size`
1500), the backward pass with a 10-byte user receive storage makes the
non-tail head filter select that 10-byte downstream slot as its best
output storage although 10 < 1500 - the claim that only the receive tail
may adopt a smaller downstream slot is false. -/
theorem C7_counterexample :
    (fchain.node c7_head c7_tail).backward (some (.user_storage 10)) =
      fchain.node
        (.base 0 1500 .NEVER_USE_INPUT_MEMORY_AS_OUTPUT (.local_input 0) (.user_storage 10))
        (.base 1 1500 .ALLOW_REUSE_OF_INPUT_MEMORY_AS_OUTPUT (.user_storage 10) (.user_storage 10)) ∧
    c7_head.max_packet_size = 1500 ∧
    slot_max_size (fun _ => 1500) (.user_storage 10) < c7_head.max_packet_size := by
  refine ⟨by decide, by decide, by decide⟩

/-- helper: the backward pass makes the tail of any chain adopt a non-null
offered slot as its best output, with no size check. -/
theorem backward_tail_adopts (c : fchain) (n : slot_ref) :
    (c.backward (some n)).get_best_output = n := by
  induction c with
  | base fid mps rs bi bo => cases rs <;> rfl
  | node f1 f2 ih1 ih2 =>
    unfold fchain.backward
    by_cases h : some (f2.backward (some n)).get_best_input = some n
    · rw [if_pos h]
      exact ih2
    · rw [if_neg h]
      exact ih2

/-- C7 (amended): the backward pass performs no size comparison at all -
the receive tail of any chain always adopts the offered downstream slot
as its best output storage regardless of its max size, and the filter
before the tail segment likewise adopts it (even when the slot is smaller
than its max_packet_size) exactly when the tail segment propagates the
slot back as its best input storage (as reuse-permitting filters do). -/
theorem C7_backward_pass_no_size_check (c1 c2 : fchain) (n : slot_ref) :
    (((fchain.node c1 c2).backward (some n)).get_best_output = n) ∧
    ((c2.backward (some n)).get_best_input = n →
      (fchain.node c1 c2).backward (some n) =
        fchain.node (c1.backward (some n)) (c2.backward (some n)) ∧
      (c1.backward (some n)).get_best_output = n) := by
  constructor
  · exact backward_tail_adopts _ n
  · intro h
    constructor
    · rw [show (fchain.node c1 c2).backward (some n) =
          (if some ((c2.backward (some n)).get_best_input) = some n then
            fchain.node (c1.backward (some n)) (c2.backward (some n))
          else fchain.node c1 (c2.backward (some n))) from rfl]
      rw [if_pos (by rw [h])]
    · exact backward_tail_adopts _ n

/-- C7 witness: the amended theorem applied to the concrete two-filter
chain and the 10-byte user storage. -/
theorem C7_backward_pass_no_size_check_witness :
    ((((fchain.node c7_head c7_tail).backward (some (.user_storage 10))).get_best_output = .user_storage 10) ∧
     ((c7_tail.backward (some (.user_storage 10))).get_best_input = .user_storage 10 →
       (fchain.node c7_head c7_tail).backward (some (.user_storage 10)) =
         fchain.node (c7_head.backward (some (.user_storage 10))) (c7_tail.backward (some (.user_storage 10))) ∧
       (c7_head.backward (some (.user_storage 10))).get_best_output = .user_storage 10)) :=
  C7_backward_pass_no_size_check c7_head c7_tail (.user_storage 10)

/-! ## C8 - the delimiter filter's matcher -/

/-- C8: the delimiter matcher of `type_delimit` / `data_delimit` resets
its match count on a mismatch without re-examining the current byte, so
with delimiter `[1, 2]` the stream `[1, 1, 2]` - which contains the
delimiter at offset 1 - produces no emission at all (all three bytes stay
accumulated), where the claim requires the frame `[1]`; continuing the
stream with another `[1, 2]` then emits `[1, 1, 2]`, a frame that contains
the delimiter. -/
theorem C8_delimit_missed_occurrence :
    type_delimit_run [1, 2] 8 ⟨0, []⟩ [1, 1, 2] = some (⟨0, [1, 1, 2]⟩, []) ∧
    [1, 1, 2] = [1] ++ [1, 2] ++ ([] : List Nat) ∧
    type_delimit_run [1, 2] 8 ⟨0, []⟩ [1, 1, 2, 1, 2] = some (⟨0, []⟩, [[1, 1, 2]]) ∧
    [1, 1, 2] = [1] ++ [1, 2] ++ ([] : List Nat) ∧ ([1, 1, 2] : List Nat) ≠ [1] := by
  refine ⟨by decide, by decide, by decide, by decide, by decide⟩

/-! ## C2 - destroy idempotence and cancellation -/

/-- helper: a set complete bit implies the category's ANY mask is set for
DESTROY. -/
theorem any_destroy_of_complete (b : op_bitmasks)
    (h : b.is_complete .DESTROY = true) : b.is_any_mask ANY_DESTROY = true := by
  have hne : b.value &&& (REL_COMPLETE <<< op_category_e.ofs .DESTROY) ≠ 0 := by
    simpa [op_bitmasks.is_complete, bne_iff_ne] using h
  have hpow : (REL_COMPLETE <<< op_category_e.ofs .DESTROY) = 2 ^ 14 := by decide
  rw [hpow] at hne
  have hbit : b.value.testBit 14 = true := testBit_of_land_two_pow hne
  have : b.value &&& ANY_DESTROY ≠ 0 :=
    land_ne_zero_of_testBit hbit (by decide)
  simpa [op_bitmasks.is_any_mask, bne_iff_ne] using this

/-- helper: the first `destroy` call's state change leaves a destroy
lifecycle bit set (it starts the DESTROY request, whose request bit is in
the ANY_DESTROY mask). -/
theorem destroy_begin_sets_any (st0 st1 : dispatcher_state)
    (h : destroy_begin st0 = some st1) :
    st1.active_ops.is_any_mask ANY_DESTROY = true := by
  unfold destroy_begin at h
  by_cases hany : st0.active_ops.is_any_mask ANY_DESTROY = true
  · rw [if_pos hany] at h
    exact Option.noConfusion h
  · rw [if_neg hany] at h
    injection h with h
    subst h
    have hbit : ((st0.active_ops.start_request .DESTROY).value).testBit 12 = true := by
      unfold op_bitmasks.start_request
      dsimp only
      rw [Nat.testBit_lor]
      rw [show (REL_REQUEST <<< op_category_e.ofs .DESTROY).testBit 12 = true from by decide]
      rw [Bool.or_true]
    have hne : (st0.active_ops.start_request .DESTROY).value &&& ANY_DESTROY ≠ 0 :=
      land_ne_zero_of_testBit hbit (by decide)
    simpa [op_bitmasks.is_any_mask, bne_iff_ne] using hne

/-- C2: once any destroy lifecycle bit is set - the condition every
post-destroy and concurrent-destroy observation in the code keys on, true
after the first `destroy` call's state change in the raw variant (request
bit only) as in the threadsafe one (up to the completed bit), and true
while a concurrent destroy is still in flight - a further `destroy` call
makes no state change (`destroy_begin` = `none`, it only waits for
completion in the threadsafe variant or returns at once in the raw one),
and every subsequently started operation of any category - open, reopen,
close, send, receive - passes the front-door wait immediately and returns
`CANCELED_IN_DESTROY`; moreover the first `destroy` call on any state
indeed establishes the condition. -/
theorem C2_destroy_idempotent_and_cancels (st : dispatcher_state)
    (h : st.active_ops.is_any_mask ANY_DESTROY = true) :
    (destroy_begin st = none ∧
     ∀ req : transact_request,
       transact_wait_predicate st req.category = true ∧
       (transact_checks req st).1 = some CANCELED_IN_DESTROY) ∧
    (∀ st0 st1 : dispatcher_state, destroy_begin st0 = some st1 →
       st1.active_ops.is_any_mask ANY_DESTROY = true) := by
  refine ⟨⟨?_, fun req => ⟨?_, ?_⟩⟩, destroy_begin_sets_any⟩
  · simp [destroy_begin, h]
  · simp [transact_wait_predicate, h]
  · simp [transact_checks, h]

/-- C2 witness: the theorem applied to the concrete raw-variant
post-destroy state whose DESTROY request bit (only) is set. -/
theorem C2_destroy_idempotent_and_cancels_witness :
    ({ base_state with active_ops := ⟨4096, 0⟩ }.active_ops.is_any_mask ANY_DESTROY = true) ∧
    ((destroy_begin { base_state with active_ops := ⟨4096, 0⟩ } = none ∧
      ∀ req : transact_request,
        transact_wait_predicate { base_state with active_ops := ⟨4096, 0⟩ } req.category = true ∧
        (transact_checks req { base_state with active_ops := ⟨4096, 0⟩ }).1 = some CANCELED_IN_DESTROY) ∧
     (∀ st0 st1 : dispatcher_state, destroy_begin st0 = some st1 →
        st1.active_ops.is_any_mask ANY_DESTROY = true)) :=
  ⟨by decide, C2_destroy_idempotent_and_cancels _ (by decide)⟩

/-! ## Preservation lemmas for the management-event transitions -/

/-- a hook outcome write changes only the written op record. -/
theorem hook_write_m_open_status (cat : op_category_e) (s : status_e) (st : dispatcher_state) :
    (hook_write cat s st).m_open_status = st.m_open_status ∧
    (hook_write cat s st).active_ops = st.active_ops := by
  unfold hook_write
  cases hop : st.op_of cat with
  | none => exact ⟨rfl, rfl⟩
  | some op => cases cat <;> simp [dispatcher_state.write_op]

/-- the RECEIVE disabled bit is set after `disable_op RECEIVE`. -/
theorem is_disabled_receive_disable (b : op_bitmasks) :
    (b.disable_op .RECEIVE).is_disabled .RECEIVE = true := by
  have : (b.disabled ||| (1 <<< op_category_e.ofs .RECEIVE)) &&& (1 <<< op_category_e.ofs .RECEIVE) ≠ 0 := by
    apply land_ne_zero_of_testBit (i := 9)
    · rw [Nat.testBit_lor]
      have : (1 <<< op_category_e.ofs .RECEIVE).testBit 9 = true := by decide
      rw [this]
      simp
    · decide
  simpa [op_bitmasks.is_disabled, op_bitmasks.disable_op, bne_iff_ne] using this

/-- the phase-bit operations do not touch the disabled word. -/
theorem start_request_disabled (b : op_bitmasks) (c : op_category_e) :
    (b.start_request c).disabled = b.disabled := rfl

/-- the accept operation does not touch the disabled word. -/
theorem accept_request_disabled (b : op_bitmasks) (c : op_category_e) :
    (b.accept_request c).disabled = b.disabled := rfl

/-- the complete operation does not touch the disabled word. -/
theorem complete_request_disabled (b : op_bitmasks) (c : op_category_e) :
    (b.complete_request c).disabled = b.disabled := rfl

/-- write_op changes no field besides the four op slots. -/
theorem write_op_m_open_status (st : dispatcher_state) (cat : op_category_e) (op : common_op) :
    (st.write_op cat op).m_open_status = st.m_open_status := by
  cases cat <;> rfl

/-- write_op leaves the lifecycle bitmask unchanged. -/
theorem write_op_active_ops (st : dispatcher_state) (cat : op_category_e) (op : common_op) :
    (st.write_op cat op).active_ops = st.active_ops := by
  cases cat <;> rfl

/-- write_op leaves the saved common open options unchanged. -/
theorem write_op_m_common_open_opts (st : dispatcher_state) (cat : op_category_e) (op : common_op) :
    (st.write_op cat op).m_common_open_opts = st.m_common_open_opts := by
  cases cat <;> rfl

/-- the OPEN ending publishes the final status as `m_open_status`. -/
theorem open_finish_m_open_status (final : status_e) (st : dispatcher_state) :
    (end_transaction_open_finish final st).m_open_status = final := rfl

/-- the SEND ending leaves `m_open_status` unchanged. -/
theorem send_finish_m_open_status (st : dispatcher_state) :
    (end_transaction_send_finish st).m_open_status = st.m_open_status := by
  unfold end_transaction_send_finish
  dsimp only
  split_ifs <;> rfl

/-- the RECEIVE ending leaves `m_open_status` unchanged. -/
theorem receive_finish_m_open_status (st : dispatcher_state) :
    (end_transaction_receive_finish st).m_open_status = st.m_open_status := by
  unfold end_transaction_receive_finish
  dsimp only
  split_ifs <;> rfl

/-- the CLOSE ending forces `NOT_OPEN` exactly on a successful close of an
open endpoint. -/
theorem close_finish_m_open_status (final : status_e) (st : dispatcher_state) :
    (end_transaction_close_finish final st).m_open_status =
      (if final.value = SUCCESS ∧ st.m_open_status.value = SUCCESS then ⟨NOT_OPEN, none⟩
       else st.m_open_status) := by
  unfold end_transaction_close_finish
  dsimp only
  split_ifs <;> rfl

/-- the SEND ending leaves the disabled word unchanged. -/
theorem send_finish_disabled (st : dispatcher_state) :
    (end_transaction_send_finish st).active_ops.disabled = st.active_ops.disabled := by
  unfold end_transaction_send_finish
  dsimp only
  split_ifs <;> rfl

/-- the RECEIVE ending leaves the disabled word unchanged. -/
theorem receive_finish_disabled (st : dispatcher_state) :
    (end_transaction_receive_finish st).active_ops.disabled = st.active_ops.disabled := by
  unfold end_transaction_receive_finish
  dsimp only
  split_ifs <;> rfl

/-- the CLOSE ending leaves the disabled word unchanged. -/
theorem close_finish_disabled (final : status_e) (st : dispatcher_state) :
    (end_transaction_close_finish final st).active_ops.disabled = st.active_ops.disabled := by
  unfold end_transaction_close_finish
  dsimp only
  split_ifs <;> rfl

/-- the callback installation keeps the RECEIVE category disabled unless
a callback-removing update (null or invalid value) is pending. -/
theorem install_callback_receive_disabled (st : dispatcher_state)
    (h : st.active_ops.is_disabled .RECEIVE = true)
    (hrem : ¬(st.m_common_open_opts.m_callback.has_update = true ∧
              (st.m_common_open_opts.m_callback.value = none ∨
               ∃ cb, st.m_common_open_opts.m_callback.value = some cb ∧ cb.is_valid = false))) :
    (install_callback_setting st).active_ops.is_disabled .RECEIVE = true := by
  unfold install_callback_setting
  by_cases hupd : st.m_common_open_opts.m_callback.has_update = true
  · cases hv : st.m_common_open_opts.m_callback.value with
    | none => exact absurd ⟨hupd, Or.inl hv⟩ hrem
    | some cb =>
      cases hvalid : cb.is_valid with
      | false => exact absurd ⟨hupd, Or.inr ⟨cb, hv, hvalid⟩⟩ hrem
      | true =>
        split
        · dsimp only
          rw [hvalid]
          rw [if_pos rfl]
          exact is_disabled_receive_disable st.active_ops
        · exact h
  · split
    · rename_i hc
      exact absurd hc.2 hupd
    · exact h

/-- the filter installation leaves the lifecycle bitmask unchanged. -/
theorem install_filter_settings_active_ops (st : dispatcher_state) :
    (install_filter_settings st).active_ops = st.active_ops := by
  unfold install_filter_settings
  dsimp only
  split_ifs <;> rfl

/-- the OPEN ending keeps the RECEIVE category disabled unless a
callback-removing update (null or invalid callback value) is pending. -/
theorem open_finish_receive_disabled (final : status_e) (st : dispatcher_state)
    (h : st.active_ops.is_disabled .RECEIVE = true)
    (hrem : ¬(st.m_common_open_opts.m_callback.has_update = true ∧
              (st.m_common_open_opts.m_callback.value = none ∨
               ∃ cb, st.m_common_open_opts.m_callback.value = some cb ∧ cb.is_valid = false))) :
    (end_transaction_open_finish final st).active_ops.is_disabled .RECEIVE = true := by
  unfold end_transaction_open_finish
  dsimp only
  have hdis : ∀ s : dispatcher_state, s.active_ops.is_disabled .RECEIVE = true →
      ((⟨s.threadsafe, final, s.active_ops.complete_request .OPEN, s.p_send_op, s.p_recv_op,
        none, s.p_close_op, s.idle_in_send_recv, s.ext_p_send_op, s.ext_p_recv_op, none,
        s.ext_p_close_op, false, none, s.p_rx_callback, s.m_common_open_opts, s.m_open_op,
        s.auto_reopen_after, s.allow_auto_reopening, s.m_open_opts_initialized,
        s.rx_filter_present, s.tx_filter_present⟩ : dispatcher_state)).active_ops.is_disabled .RECEIVE = true := by
    intro s hdiss
    simpa [op_bitmasks.is_disabled, op_bitmasks.complete_request] using hdiss
  split_ifs <;>
    first
      | exact hdis _ h
      | (apply hdis
         rw [install_filter_settings_active_ops]
         exact install_callback_receive_disabled _ h hrem)

/-- `end_transaction` never makes a non-open endpoint open unless it ends
an open operation whose final status is SUCCESS. -/
theorem end_transaction_not_open (cat : op_category_e) (now : Int) (st : dispatcher_state)
    (h : st.m_open_status.value ≠ SUCCESS)
    (hs : successful_open_finish st (.finish cat now) = false) :
    (end_transaction cat now st).m_open_status.value ≠ SUCCESS := by
  cases cat with
  | DESTROY => exact h
  | CONSTRUCT => exact h
  | SEND =>
    cases hop : st.p_send_op with
    | none =>
      unfold end_transaction
      dsimp only [dispatcher_state.op_of]
      rw [hop]
      exact h
    | some op =>
      unfold end_transaction
      dsimp only [dispatcher_state.op_of]
      rw [hop]
      dsimp only
      split
      · exact h
      · rw [send_finish_m_open_status, write_op_m_open_status]
        exact h
  | RECEIVE =>
    cases hop : st.p_recv_op with
    | none =>
      unfold end_transaction
      dsimp only [dispatcher_state.op_of]
      rw [hop]
      exact h
    | some op =>
      unfold end_transaction
      dsimp only [dispatcher_state.op_of]
      rw [hop]
      dsimp only
      split
      · exact h
      · rw [receive_finish_m_open_status, write_op_m_open_status]
        exact h
  | CLOSE =>
    cases hop : st.p_close_op with
    | none =>
      unfold end_transaction
      dsimp only [dispatcher_state.op_of]
      rw [hop]
      exact h
    | some op =>
      unfold end_transaction
      dsimp only [dispatcher_state.op_of]
      rw [hop]
      dsimp only
      split
      · exact h
      · rw [close_finish_m_open_status, write_op_m_open_status]
        split_ifs <;> first | decide | exact h
  | OPEN =>
    cases hop : st.p_open_op with
    | none =>
      unfold end_transaction
      dsimp only [dispatcher_state.op_of]
      rw [hop]
      exact h
    | some op =>
      have hsv : op.status.value ≠ SUCCESS := by
        simp only [successful_open_finish, hop] at hs
        simpa using hs
      unfold end_transaction
      dsimp only [dispatcher_state.op_of]
      rw [hop]
      dsimp only
      split
      · exact h
      · rw [open_finish_m_open_status]
        split_ifs <;> first | decide | exact hsv

/-- `end_transaction` keeps the RECEIVE category disabled unless it ends
an open operation while a callback-removing update is pending. -/
theorem end_transaction_receive_disabled (cat : op_category_e) (now : Int) (st : dispatcher_state)
    (h : st.active_ops.is_disabled .RECEIVE = true)
    (hrem : callback_removal_finish st (.finish cat now) = false) :
    (end_transaction cat now st).active_ops.is_disabled .RECEIVE = true := by
  cases cat with
  | DESTROY => exact h
  | CONSTRUCT => exact h
  | SEND =>
    cases hop : st.p_send_op with
    | none =>
      unfold end_transaction
      dsimp only [dispatcher_state.op_of]
      rw [hop]
      exact h
    | some op =>
      unfold end_transaction
      dsimp only [dispatcher_state.op_of]
      rw [hop]
      dsimp only
      split
      · exact h
      · have hd : (end_transaction_send_finish (st.write_op .SEND
            { op with status := if op.status.is_operating = true then
                (if op.end_time < now then ⟨TIMED_OUT, none⟩ else ⟨NOT_OPEN, none⟩)
              else op.status })).active_ops.disabled = st.active_ops.disabled := by
          rw [send_finish_disabled, write_op_active_ops]
        simpa [op_bitmasks.is_disabled, hd] using h
  | RECEIVE =>
    cases hop : st.p_recv_op with
    | none =>
      unfold end_transaction
      dsimp only [dispatcher_state.op_of]
      rw [hop]
      exact h
    | some op =>
      unfold end_transaction
      dsimp only [dispatcher_state.op_of]
      rw [hop]
      dsimp only
      split
      · exact h
      · have hd : (end_transaction_receive_finish (st.write_op .RECEIVE
            { op with status := if op.status.is_operating = true then
                (if op.end_time < now then ⟨TIMED_OUT, none⟩ else ⟨NOT_OPEN, none⟩)
              else op.status })).active_ops.disabled = st.active_ops.disabled := by
          rw [receive_finish_disabled, write_op_active_ops]
        simpa [op_bitmasks.is_disabled, hd] using h
  | CLOSE =>
    cases hop : st.p_close_op with
    | none =>
      unfold end_transaction
      dsimp only [dispatcher_state.op_of]
      rw [hop]
      exact h
    | some op =>
      unfold end_transaction
      dsimp only [dispatcher_state.op_of]
      rw [hop]
      dsimp only
      split
      · exact h
      · have hd : (end_transaction_close_finish
            (if op.status.is_operating = true then
                (if op.end_time < now then ⟨TIMED_OUT, none⟩ else ⟨NOT_OPEN, none⟩)
              else op.status)
            (st.write_op .CLOSE
            { op with status := if op.status.is_operating = true then
                (if op.end_time < now then ⟨TIMED_OUT, none⟩ else ⟨NOT_OPEN, none⟩)
              else op.status })).active_ops.disabled = st.active_ops.disabled := by
          rw [close_finish_disabled, write_op_active_ops]
        simpa [op_bitmasks.is_disabled, hd] using h
  | OPEN =>
    cases hop : st.p_open_op with
    | none =>
      unfold end_transaction
      dsimp only [dispatcher_state.op_of]
      rw [hop]
      exact h
    | some op =>
      have hrem2 : ¬(st.m_common_open_opts.m_callback.has_update = true ∧
          (st.m_common_open_opts.m_callback.value = none ∨
           ∃ cb, st.m_common_open_opts.m_callback.value = some cb ∧ cb.is_valid = false)) := by
        simp only [callback_removal_finish, hop] at hrem
        intro hcon
        obtain ⟨hup, hv⟩ := hcon
        rcases hv with hv | ⟨cb, hv, hvf⟩ <;> simp_all
      unfold end_transaction
      dsimp only [dispatcher_state.op_of]
      rw [hop]
      dsimp only
      split
      · exact h
      · exact open_finish_receive_disabled _ _ h hrem2

/-- the front-door checks never make the endpoint open (`m_open_status` is
only written to the two callback-argument error codes). -/
theorem transact_checks_not_open (req : transact_request) (st : dispatcher_state)
    (h : st.m_open_status.value ≠ SUCCESS) :
    (transact_checks req st).2.m_open_status.value ≠ SUCCESS := by
  unfold transact_checks
  cases req <;>
    dsimp only [transact_request.category] <;>
      split_ifs <;>
        first
          | exact h
          | (dsimp only; decide)

/-- the front-door checks never change the disabled word. -/
theorem transact_checks_disabled (req : transact_request) (st : dispatcher_state) :
    (transact_checks req st).2.active_ops.disabled = st.active_ops.disabled := by
  unfold transact_checks
  cases req <;>
    dsimp only [transact_request.category] <;>
      split_ifs <;>
        rfl

/-- the pointer adoption and acceptance block leaves `m_open_status` and
the disabled word unchanged. -/
theorem adopt_and_accept_preserves (st : dispatcher_state) :
    (adopt_and_accept st).m_open_status = st.m_open_status ∧
    (adopt_and_accept st).active_ops.disabled = st.active_ops.disabled := by
  have hstep : ∀ (f : dispatcher_state → dispatcher_state),
      (∀ s, (f s).m_open_status = s.m_open_status ∧ (f s).active_ops.disabled = s.active_ops.disabled) →
      ∀ s, (f s).m_open_status = s.m_open_status ∧ (f s).active_ops.disabled = s.active_ops.disabled :=
    fun _ hf => hf
  have h1 : ∀ s : dispatcher_state, (adopt_send_ptr s).m_open_status = s.m_open_status ∧
      (adopt_send_ptr s).active_ops.disabled = s.active_ops.disabled := by
    intro s
    unfold adopt_send_ptr
    split <;> exact ⟨rfl, rfl⟩
  have h2 : ∀ s : dispatcher_state, (adopt_recv_ptr s).m_open_status = s.m_open_status ∧
      (adopt_recv_ptr s).active_ops.disabled = s.active_ops.disabled := by
    intro s
    unfold adopt_recv_ptr
    split <;> exact ⟨rfl, rfl⟩
  have h3 : ∀ s : dispatcher_state, (adopt_open_ptr s).m_open_status = s.m_open_status ∧
      (adopt_open_ptr s).active_ops.disabled = s.active_ops.disabled := by
    intro s
    unfold adopt_open_ptr
    split <;> exact ⟨rfl, rfl⟩
  have h4 : ∀ s : dispatcher_state, (adopt_close_ptr s).m_open_status = s.m_open_status ∧
      (adopt_close_ptr s).active_ops.disabled = s.active_ops.disabled := by
    intro s
    unfold adopt_close_ptr
    split <;> exact ⟨rfl, rfl⟩
  have h5 : ∀ s : dispatcher_state, (accept_send_request s).m_open_status = s.m_open_status ∧
      (accept_send_request s).active_ops.disabled = s.active_ops.disabled := by
    intro s
    unfold accept_send_request
    split <;> exact ⟨rfl, rfl⟩
  have h6 : ∀ s : dispatcher_state, (accept_recv_request s).m_open_status = s.m_open_status ∧
      (accept_recv_request s).active_ops.disabled = s.active_ops.disabled := by
    intro s
    unfold accept_recv_request
    split <;> exact ⟨rfl, rfl⟩
  have h7 : ∀ s : dispatcher_state, (accept_close_request s).m_open_status = s.m_open_status ∧
      (accept_close_request s).active_ops.disabled = s.active_ops.disabled := by
    intro s
    unfold accept_close_request
    split <;> exact ⟨rfl, rfl⟩
  have h8 : ∀ s : dispatcher_state, (accept_open_request s).m_open_status = s.m_open_status ∧
      (accept_open_request s).active_ops.disabled = s.active_ops.disabled := by
    intro s
    unfold accept_open_request
    split <;> exact ⟨rfl, rfl⟩
  unfold adopt_and_accept
  dsimp only
  split
  · constructor
    · rw [(h8 _).1, (h7 _).1, (h6 _).1, (h5 _).1, (h4 _).1, (h3 _).1, (h2 _).1, (h1 _).1]
    · rw [(h8 _).2, (h7 _).2, (h6 _).2, (h5 _).2, (h4 _).2, (h3 _).2, (h2 _).2, (h1 _).2]
  · constructor
    · rw [(h4 _).1, (h3 _).1, (h2 _).1, (h1 _).1]
    · rw [(h4 _).2, (h3 _).2, (h2 _).2, (h1 _).2]

/-- the auto-reopen installation leaves `m_open_status` and the disabled
word unchanged. -/
theorem auto_reopen_step_preserves (t : Int) (st : dispatcher_state) :
    (auto_reopen_step t st).m_open_status = st.m_open_status ∧
    (auto_reopen_step t st).active_ops.disabled = st.active_ops.disabled := by
  unfold auto_reopen_step
  split_ifs <;> exact ⟨rfl, rfl⟩

/-- one management event never makes a non-open endpoint open unless it is
a successful open completion. -/
theorem mgmt_step_not_open (st : dispatcher_state) (e : mgmt_event)
    (hs : successful_open_finish st e = false)
    (h : st.m_open_status.value ≠ SUCCESS) :
    (mgmt_step st e).m_open_status.value ≠ SUCCESS := by
  cases e with
  | hook_result cat s =>
    show (hook_write cat s st).m_open_status.value ≠ SUCCESS
    rw [(hook_write_m_open_status cat s st).1]
    exact h
  | finish cat now => exact end_transaction_not_open cat now st h hs
  | accept_destroy =>
    show ((check_and_process_destruction st).getD st).m_open_status.value ≠ SUCCESS
    unfold check_and_process_destruction
    split
    · dsimp only [Option.getD]
      decide
    · dsimp only [Option.getD]
      exact h
  | front_door req => exact transact_checks_not_open req st h
  | adopt =>
    show (adopt_and_accept st).m_open_status.value ≠ SUCCESS
    rw [(adopt_and_accept_preserves st).1]
    exact h
  | auto_reopen t =>
    show (auto_reopen_step t st).m_open_status.value ≠ SUCCESS
    rw [(auto_reopen_step_preserves t st).1]
    exact h

/-- one management event keeps the RECEIVE category disabled unless it is
an open completion with a callback-removing update pending. -/
theorem mgmt_step_receive_disabled (st : dispatcher_state) (e : mgmt_event)
    (hrem : callback_removal_finish st e = false)
    (h : st.active_ops.is_disabled .RECEIVE = true) :
    (mgmt_step st e).active_ops.is_disabled .RECEIVE = true := by
  cases e with
  | hook_result cat s =>
    show (hook_write cat s st).active_ops.is_disabled .RECEIVE = true
    rw [(hook_write_m_open_status cat s st).2]
    exact h
  | finish cat now => exact end_transaction_receive_disabled cat now st h hrem
  | accept_destroy =>
    show ((check_and_process_destruction st).getD st).active_ops.is_disabled .RECEIVE = true
    unfold check_and_process_destruction
    split
    · dsimp only [Option.getD]
      simpa [op_bitmasks.is_disabled, op_bitmasks.accept_request] using h
    · dsimp only [Option.getD]
      exact h
  | front_door req =>
    show (transact_checks req st).2.active_ops.is_disabled .RECEIVE = true
    have hd := transact_checks_disabled req st
    simpa [op_bitmasks.is_disabled, hd] using h
  | adopt =>
    show (adopt_and_accept st).active_ops.is_disabled .RECEIVE = true
    have hd := (adopt_and_accept_preserves st).2
    simpa [op_bitmasks.is_disabled, hd] using h
  | auto_reopen t =>
    show (auto_reopen_step t st).active_ops.is_disabled .RECEIVE = true
    have hd := (auto_reopen_step_preserves t st).2
    simpa [op_bitmasks.is_disabled, hd] using h

/-- a trace of management events with no successful open completion keeps
a non-open endpoint non-open. -/
theorem not_open_trace (evs : List mgmt_event) :
    ∀ st : dispatcher_state, st.m_open_status.value ≠ SUCCESS →
      no_successful_open st evs = true →
      (evs.foldl mgmt_step st).m_open_status.value ≠ SUCCESS := by
  induction evs with
  | nil => intro st h _; exact h
  | cons e rest ih =>
    intro st h hno
    simp only [no_successful_open, Bool.and_eq_true, Bool.not_eq_true'] at hno
    exact ih (mgmt_step st e) (mgmt_step_not_open st e hno.1 h) hno.2

/-- a trace of management events with no callback-removing open completion
keeps the RECEIVE category disabled. -/
theorem receive_disabled_trace (evs : List mgmt_event) :
    ∀ st : dispatcher_state, st.active_ops.is_disabled .RECEIVE = true →
      no_callback_removal st evs = true →
      ((evs.foldl mgmt_step st)).active_ops.is_disabled .RECEIVE = true := by
  induction evs with
  | nil => intro st h _; exact h
  | cons e rest ih =>
    intro st h hno
    simp only [no_callback_removal, Bool.and_eq_true, Bool.not_eq_true'] at hno
    exact ih (mgmt_step st e) (mgmt_step_receive_disabled st e hno.1 h) hno.2

/-- is_open is false exactly when the open status value is not SUCCESS. -/
theorem is_open_false_iff (st : dispatcher_state) :
    st.is_open = false ↔ st.m_open_status.value ≠ SUCCESS := by
  simp [dispatcher_state.is_open, status_e.to_bool]

/-! ## C1 - a successful close keeps the endpoint closed -/

/-- C1: when `end_transaction` ends a close operation whose status is
`SUCCESS`, the endpoint observes `is_open() = false` and
`open_status() ≠ SUCCESS`, and these stay false along every sequence of
dispatcher transitions that contains no successful open completion. -/
theorem C1_close_success_stays_closed (st : dispatcher_state) (now : Int) (cop : common_op)
    (hclose : st.p_close_op = some cop)
    (hsucc : cop.status.value = SUCCESS) :
    ((end_transaction .CLOSE now st).is_open = false ∧
     (end_transaction .CLOSE now st).open_status.value ≠ SUCCESS) ∧
    ∀ evs : List mgmt_event,
      no_successful_open (end_transaction .CLOSE now st) evs = true →
      (evs.foldl mgmt_step (end_transaction .CLOSE now st)).is_open = false := by
  have hoper : cop.status.is_operating = false := by
    simp [status_e.is_operating, hsucc, SUCCESS, START_NEW_OP, OP_IN_PROGRESS]
  have hkey : (end_transaction .CLOSE now st).m_open_status.value ≠ SUCCESS := by
    unfold end_transaction
    dsimp only [dispatcher_state.op_of]
    rw [hclose]
    dsimp only
    rw [if_neg (by intro hcon; rw [hoper] at hcon; exact absurd hcon.1 (by simp))]
    rw [close_finish_m_open_status, write_op_m_open_status]
    simp only [hoper, Bool.false_eq_true, if_false]
    by_cases hopen : st.m_open_status.value = SUCCESS
    · rw [if_pos ⟨hsucc, hopen⟩]
      decide
    · rw [if_neg (by intro hcon; exact hopen hcon.2)]
      exact hopen
  refine ⟨⟨(is_open_false_iff _).mpr hkey, hkey⟩, fun evs hno => ?_⟩
  exact (is_open_false_iff _).mpr (not_open_trace evs _ hkey hno)

/-- C1 witness: the theorem applied to a concrete open endpoint whose
close op finished with SUCCESS, followed by the empty transition
sequence. -/
theorem C1_close_success_stays_closed_witness :
    ({ base_state with p_close_op := some ⟨100, ⟨SUCCESS, none⟩⟩ }.p_close_op =
      some ⟨100, ⟨SUCCESS, none⟩⟩) ∧
    ((⟨100, ⟨SUCCESS, none⟩⟩ : common_op).status.value = SUCCESS) ∧
    (((end_transaction .CLOSE 0 { base_state with p_close_op := some ⟨100, ⟨SUCCESS, none⟩⟩ }).is_open = false ∧
      (end_transaction .CLOSE 0 { base_state with p_close_op := some ⟨100, ⟨SUCCESS, none⟩⟩ }).open_status.value ≠ SUCCESS) ∧
     ∀ evs : List mgmt_event,
       no_successful_open (end_transaction .CLOSE 0 { base_state with p_close_op := some ⟨100, ⟨SUCCESS, none⟩⟩ }) evs = true →
       (evs.foldl mgmt_step (end_transaction .CLOSE 0 { base_state with p_close_op := some ⟨100, ⟨SUCCESS, none⟩⟩ })).is_open = false) :=
  ⟨rfl, rfl, C1_close_success_stays_closed _ 0 _ rfl rfl⟩

/-! ## C3 - an installed receive callback disables manual receives -/

/-- the value word of the bitmask is untouched by the callback
installation. -/
theorem install_callback_setting_value (s : dispatcher_state) :
    (install_callback_setting s).active_ops.value = s.active_ops.value := by
  unfold install_callback_setting
  split
  · split <;> first | rfl | (split <;> rfl)
  · rfl

/-- is_any_mask only reads the value word. -/
theorem is_any_mask_value (b b' : op_bitmasks) (m : Nat) (h : b.value = b'.value) :
    b.is_any_mask m = b'.is_any_mask m := by
  unfold op_bitmasks.is_any_mask
  rw [h]

/-- completing the OPEN request does not change whether any DESTROY phase
is active. -/
theorem complete_open_any_destroy (b : op_bitmasks) :
    (b.complete_request .OPEN).is_any_mask ANY_DESTROY = b.is_any_mask ANY_DESTROY := by
  unfold op_bitmasks.is_any_mask op_bitmasks.complete_request
  dsimp only
  rw [mask_untouched b.value (by decide) (by decide)]

/-- the callback installation with a valid pending callback disables the
external RECEIVE category. -/
theorem install_callback_sets_disabled (s : dispatcher_state) (cb : recv_callback_t)
    (hts : s.threadsafe = true)
    (hupd : s.m_common_open_opts.m_callback.has_update = true)
    (hval : s.m_common_open_opts.m_callback.value = some cb)
    (hvalid : cb.is_valid = true) :
    (install_callback_setting s).active_ops.is_disabled .RECEIVE = true := by
  unfold install_callback_setting
  rw [if_pos ⟨hts, hupd⟩, hval]
  dsimp only
  rw [hvalid]
  rw [if_pos rfl]
  exact is_disabled_receive_disable s.active_ops

/-- a complete_request of OPEN keeps the value-word relation used by the
ANY_DESTROY mask. -/
theorem open_finish_branch_any (b b2 : op_bitmasks) (h : b2.value = b.value) :
    (b2.complete_request .OPEN).is_any_mask ANY_DESTROY = b.is_any_mask ANY_DESTROY := by
  rw [is_any_mask_value (b2.complete_request .OPEN) (b.complete_request .OPEN) _
    (by unfold op_bitmasks.complete_request; dsimp only; rw [h])]
  exact complete_open_any_destroy b

/-- the OPEN ending with a successful status and a valid pending callback
leaves the RECEIVE category disabled. -/
theorem open_finish_sets_disabled (final : status_e) (s : dispatcher_state) (cb : recv_callback_t)
    (hfin : final.value = SUCCESS)
    (hts : s.threadsafe = true)
    (hupd : s.m_common_open_opts.m_callback.has_update = true)
    (hval : s.m_common_open_opts.m_callback.value = some cb)
    (hvalid : cb.is_valid = true) :
    (end_transaction_open_finish final s).active_ops.is_disabled .RECEIVE = true := by
  unfold end_transaction_open_finish
  dsimp only
  rw [if_pos (Or.inl hfin)]
  rw [show ∀ b : op_bitmasks, (b.complete_request .OPEN).is_disabled .RECEIVE = b.is_disabled .RECEIVE
      from fun _ => rfl]
  rw [install_filter_settings_active_ops]
  exact install_callback_sets_disabled _ cb hts hupd hval hvalid

/-- the OPEN ending never changes whether any DESTROY phase is active. -/
theorem open_finish_any_destroy (final : status_e) (s : dispatcher_state) :
    (end_transaction_open_finish final s).active_ops.is_any_mask ANY_DESTROY =
      s.active_ops.is_any_mask ANY_DESTROY := by
  unfold end_transaction_open_finish
  dsimp only
  split_ifs <;>
    first
      | exact complete_open_any_destroy s.active_ops
      | exact open_finish_branch_any s.active_ops _
          (by rw [install_filter_settings_active_ops]; exact install_callback_setting_value _)

/-- C3: when `end_transaction` ends a successful open that installs a
valid receive callback (threadsafe endpoint), the RECEIVE category enters
the disabled lifecycle state; with no destruction in flight a manual
`receive` front-door call passes the wait immediately and returns
`DISABLED`; and the category stays disabled along every sequence of
dispatcher transitions that contains no open completion with a
callback-removing update pending. -/
theorem C3_callback_disables_manual_receive (st : dispatcher_state) (now : Int)
    (op : common_op) (cb : recv_callback_t)
    (hts : st.threadsafe = true)
    (hop : st.p_open_op = some op)
    (hsucc : op.status.value = SUCCESS)
    (hupd : st.m_common_open_opts.m_callback.has_update = true)
    (hval : st.m_common_open_opts.m_callback.value = some cb)
    (hvalid : cb.is_valid = true)
    (hnod : st.active_ops.is_any_mask ANY_DESTROY = false) :
    ((end_transaction .OPEN now st).active_ops.is_disabled .RECEIVE = true) ∧
    ((end_transaction .OPEN now st).active_ops.is_any_mask ANY_DESTROY = false) ∧
    (transact_wait_predicate (end_transaction .OPEN now st) .RECEIVE = true) ∧
    (∀ rop : common_op,
      (transact_checks (.recv rop) (end_transaction .OPEN now st)).1 = some DISABLED) ∧
    ∀ evs : List mgmt_event,
      no_callback_removal (end_transaction .OPEN now st) evs = true →
      ((evs.foldl mgmt_step (end_transaction .OPEN now st))).active_ops.is_disabled .RECEIVE = true := by
  have hoper : op.status.is_operating = false := by
    simp [status_e.is_operating, hsucc, SUCCESS, START_NEW_OP, OP_IN_PROGRESS]
  have hred : end_transaction .OPEN now st =
      end_transaction_open_finish op.status
        (st.write_op .OPEN { op with status := op.status }) := by
    unfold end_transaction
    dsimp only [dispatcher_state.op_of]
    rw [hop]
    dsimp only
    rw [if_neg (by intro hcon; rw [hoper] at hcon; exact absurd hcon.1 (by simp))]
    simp only [hoper, Bool.false_eq_true, if_false]
  have hdis : (end_transaction .OPEN now st).active_ops.is_disabled .RECEIVE = true := by
    rw [hred]
    exact open_finish_sets_disabled _ _ cb hsucc hts hupd hval hvalid
  have hnod2 : (end_transaction .OPEN now st).active_ops.is_any_mask ANY_DESTROY = false := by
    rw [hred, open_finish_any_destroy]
    rw [is_any_mask_value _ st.active_ops _ (by rw [write_op_active_ops])]
    exact hnod
  refine ⟨hdis, hnod2, ?_, ?_, ?_⟩
  · unfold transact_wait_predicate
    rw [if_pos (by simp [hdis])]
  · intro rop
    unfold transact_checks
    rw [if_neg (by simp [hnod2])]
    dsimp only [transact_request.category]
    rw [if_pos hdis]
  · intro evs hno
    exact receive_disabled_trace evs _ hdis hno

/-- C3 witness: the theorem applied to a concrete threadsafe endpoint
whose open op finished with SUCCESS while a valid receive-callback update
is pending, followed by the empty transition sequence. -/
theorem C3_callback_disables_manual_receive_witness :
    ({ base_state with
        p_open_op := some ⟨100, ⟨SUCCESS, none⟩⟩,
        m_common_open_opts := { default_common_opts with m_callback := ⟨some ⟨true⟩, .UPDATE⟩ } }.threadsafe = true) ∧
    (let stw : dispatcher_state := { base_state with
        p_open_op := some ⟨100, ⟨SUCCESS, none⟩⟩,
        m_common_open_opts := { default_common_opts with m_callback := ⟨some ⟨true⟩, .UPDATE⟩ } }
     ((end_transaction .OPEN 0 stw).active_ops.is_disabled .RECEIVE = true) ∧
     ((end_transaction .OPEN 0 stw).active_ops.is_any_mask ANY_DESTROY = false) ∧
     (transact_wait_predicate (end_transaction .OPEN 0 stw) .RECEIVE = true) ∧
     (∀ rop : common_op,
       (transact_checks (.recv rop) (end_transaction .OPEN 0 stw)).1 = some DISABLED) ∧
     ∀ evs : List mgmt_event,
       no_callback_removal (end_transaction .OPEN 0 stw) evs = true →
       ((evs.foldl mgmt_step (end_transaction .OPEN 0 stw))).active_ops.is_disabled .RECEIVE = true) :=
  ⟨rfl,
   C3_callback_disables_manual_receive _ 0 ⟨100, ⟨SUCCESS, none⟩⟩ ⟨true⟩
     rfl rfl rfl rfl rfl rfl (by decide)⟩

/-! ## C4 - SLIP round trip -/

/-- characterisation of the encoder loop: under the running invariant
`minimum ≤ max_size`, it succeeds exactly when the final encoded size
(`minimum` plus the escapes still to come) fits, emitting the escaped
bytes followed by the frame end. -/
theorem slip_encode_loop_eq (max_size : Nat) (input : List Nat) :
    ∀ (minimum : Nat) (storage : List Nat), minimum ≤ max_size →
      slip_encode_loop max_size input minimum storage =
        if minimum + num_escapes input ≤ max_size then
          some (storage ++ encoded_bytes input ++ [frame_end])
        else none := by
  induction input with
  | nil =>
    intro m s hm
    simp [slip_encode_loop, encoded_bytes, num_escapes, hm]
  | cons b rest ih =>
    intro m s hm
    by_cases hb1 : b = frame_end
    · subst hb1
      rw [show slip_encode_loop max_size (frame_end :: rest) m s =
          (if m + 1 > max_size then none
           else slip_encode_loop max_size rest (m + 1) (s ++ [frame_escape, transposed_frame_end])) from rfl]
      rw [show num_escapes (frame_end :: rest) = 1 + num_escapes rest from rfl]
      rw [show encoded_bytes (frame_end :: rest) =
          [frame_escape, transposed_frame_end] ++ encoded_bytes rest from rfl]
      by_cases hover : m + 1 > max_size
      · rw [if_pos hover, if_neg (by omega)]
      · rw [if_neg hover, ih (m + 1) _ (by omega)]
        split_ifs with h1 h2
        · simp
        · omega
        · omega
        · rfl
    · by_cases hb2 : b = frame_escape
      · subst hb2
        rw [show slip_encode_loop max_size (frame_escape :: rest) m s =
            (if m + 1 > max_size then none
             else slip_encode_loop max_size rest (m + 1) (s ++ [frame_escape, transposed_frame_escape])) from rfl]
        rw [show num_escapes (frame_escape :: rest) = 1 + num_escapes rest from rfl]
        rw [show encoded_bytes (frame_escape :: rest) =
            [frame_escape, transposed_frame_escape] ++ encoded_bytes rest from rfl]
        by_cases hover : m + 1 > max_size
        · rw [if_pos hover, if_neg (by omega)]
        · rw [if_neg hover, ih (m + 1) _ (by omega)]
          split_ifs with h1 h2
          · simp
          · omega
          · omega
          · rfl
      · rw [show slip_encode_loop max_size (b :: rest) m s =
            (if b = frame_end then
               (if m + 1 > max_size then none
                else slip_encode_loop max_size rest (m + 1) (s ++ [frame_escape, transposed_frame_end]))
             else if b = frame_escape then
               (if m + 1 > max_size then none
                else slip_encode_loop max_size rest (m + 1) (s ++ [frame_escape, transposed_frame_escape]))
             else slip_encode_loop max_size rest m (s ++ [b])) from rfl]
        rw [if_neg hb1, if_neg hb2]
        rw [show num_escapes (b :: rest) =
            (if b = frame_end ∨ b = frame_escape then 1 else 0) + num_escapes rest from rfl]
        rw [show encoded_bytes (b :: rest) = escaped_byte b ++ encoded_bytes rest from rfl]
        rw [show escaped_byte b =
            (if b = frame_end then [frame_escape, transposed_frame_end]
             else if b = frame_escape then [frame_escape, transposed_frame_escape]
             else [b]) from rfl]
        rw [if_neg hb1, if_neg hb2]
        rw [if_neg (show ¬(b = frame_end ∨ b = frame_escape) from by
          intro hcon
          rcases hcon with hcon | hcon
          · exact hb1 hcon
          · exact hb2 hcon)]
        rw [ih m _ hm]
        split_ifs with h1 h2
        · simp
        · omega
        · omega
        · rfl

/-- characterisation of `slip::encode`: it succeeds exactly when the
encoded size (input length + escapes + the frame end) fits the storage,
emitting the escaped bytes followed by the frame end. -/
theorem slip_encode_eq (max_size : Nat) (B : List Nat) :
    slip_encode max_size B =
      if B.length + 1 + num_escapes B ≤ max_size then
        some (encoded_bytes B ++ [frame_end])
      else none := by
  unfold slip_encode
  by_cases h : B.length + 1 > max_size
  · rw [if_pos h, if_neg (by omega)]
  · rw [if_neg h, slip_encode_loop_eq max_size B (B.length + 1) [] (by omega)]
    split_ifs with h1
    · simp
    · rfl

/-- decoding the escaped bytes of a message appends exactly the original
bytes to the decoder storage and emits nothing, for any continuation of
the stream. -/
theorem slip_decode_run_encBytes (max_size : Nat) (B : List Nat) :
    ∀ (acc rest : List Nat), acc.length + B.length ≤ max_size →
      slip_decode_run max_size ⟨false, false, acc⟩ (encoded_bytes B ++ rest) =
        slip_decode_run max_size ⟨false, false, acc ++ B⟩ rest := by
  induction B with
  | nil =>
    intro acc rest _
    simp [encoded_bytes]
  | cons b B ih =>
    intro acc rest h
    have hlen : ¬(acc.length ≥ max_size) := by
      simp only [List.length_cons] at h
      omega
    by_cases hb1 : b = frame_end
    · subst hb1
      rw [show (encoded_bytes (frame_end :: B) ++ rest) =
          frame_escape :: transposed_frame_end :: (encoded_bytes B ++ rest) from by
        rw [show encoded_bytes (frame_end :: B) =
            frame_escape :: transposed_frame_end :: encoded_bytes B from rfl]
        rfl]
      have h1 : slip_decode_run max_size ⟨false, false, acc⟩
          (frame_escape :: transposed_frame_end :: (encoded_bytes B ++ rest)) =
          slip_decode_run max_size ⟨true, false, acc⟩
            (transposed_frame_end :: (encoded_bytes B ++ rest)) := rfl
      have hb : slip_decode_byte max_size ⟨true, false, acc⟩ transposed_frame_end =
          (if acc.length ≥ max_size then .abort_exceeded_storage
           else .ok ⟨false, false, acc ++ [frame_end]⟩ none) := rfl
      rw [if_neg hlen] at hb
      have h2 : slip_decode_run max_size ⟨true, false, acc⟩
          (transposed_frame_end :: (encoded_bytes B ++ rest)) =
          slip_decode_run max_size ⟨false, false, acc ++ [frame_end]⟩ (encoded_bytes B ++ rest) := by
        conv_lhs => rw [slip_decode_run]
        rw [hb]
      rw [h1, h2, ih (acc ++ [frame_end]) rest (by simp at h ⊢; omega)]
      rw [show acc ++ frame_end :: B = (acc ++ [frame_end]) ++ B from by simp]
    · by_cases hb2 : b = frame_escape
      · subst hb2
        rw [show (encoded_bytes (frame_escape :: B) ++ rest) =
            frame_escape :: transposed_frame_escape :: (encoded_bytes B ++ rest) from by
          rw [show encoded_bytes (frame_escape :: B) =
              frame_escape :: transposed_frame_escape :: encoded_bytes B from by
            rw [show encoded_bytes (frame_escape :: B) = escaped_byte frame_escape ++ encoded_bytes B from rfl]
            rfl]
          rfl]
        have h1 : slip_decode_run max_size ⟨false, false, acc⟩
            (frame_escape :: transposed_frame_escape :: (encoded_bytes B ++ rest)) =
            slip_decode_run max_size ⟨true, false, acc⟩
              (transposed_frame_escape :: (encoded_bytes B ++ rest)) := rfl
        have hb : slip_decode_byte max_size ⟨true, false, acc⟩ transposed_frame_escape =
            (if acc.length ≥ max_size then .abort_exceeded_storage
             else .ok ⟨false, false, acc ++ [frame_escape]⟩ none) := rfl
        rw [if_neg hlen] at hb
        have h2 : slip_decode_run max_size ⟨true, false, acc⟩
            (transposed_frame_escape :: (encoded_bytes B ++ rest)) =
            slip_decode_run max_size ⟨false, false, acc ++ [frame_escape]⟩ (encoded_bytes B ++ rest) := by
          conv_lhs => rw [slip_decode_run]
          rw [hb]
        rw [h1, h2, ih (acc ++ [frame_escape]) rest (by simp at h ⊢; omega)]
        rw [show acc ++ frame_escape :: B = (acc ++ [frame_escape]) ++ B from by simp]
      · rw [show (encoded_bytes (b :: B) ++ rest) = b :: (encoded_bytes B ++ rest) from by
          rw [show encoded_bytes (b :: B) = escaped_byte b ++ encoded_bytes B from rfl]
          rw [show escaped_byte b =
              (if b = frame_end then [frame_escape, transposed_frame_end]
               else if b = frame_escape then [frame_escape, transposed_frame_escape]
               else [b]) from rfl]
          rw [if_neg hb1, if_neg hb2]
          rfl]
        have hb : slip_decode_byte max_size ⟨false, false, acc⟩ b =
            (if b = frame_end then
               (if acc.length > 0 then .ok ⟨false, false, []⟩ (some acc) else .ok ⟨false, false, acc⟩ none)
             else if b = frame_escape then .ok ⟨true, false, acc⟩ none
             else if acc.length ≥ max_size then .abort_exceeded_storage
             else .ok ⟨false, false, acc ++ [b]⟩ none) := rfl
        rw [if_neg hb1, if_neg hb2, if_neg hlen] at hb
        have h2 : slip_decode_run max_size ⟨false, false, acc⟩ (b :: (encoded_bytes B ++ rest)) =
            slip_decode_run max_size ⟨false, false, acc ++ [b]⟩ (encoded_bytes B ++ rest) := by
          conv_lhs => rw [slip_decode_run]
          rw [hb]
        rw [h2, ih (acc ++ [b]) rest (by simp at h ⊢; omega)]
        rw [show acc ++ b :: B = (acc ++ [b]) ++ B from by simp]

/-- a frame end with a non-empty decoder storage emits the storage as one
frame and resets it. -/
theorem slip_decode_run_emit (max_size : Nat) (acc rest : List Nat) (hne : acc ≠ []) :
    slip_decode_run max_size ⟨false, false, acc⟩ (frame_end :: rest) =
      match slip_decode_run max_size ⟨false, false, []⟩ rest with
      | some (st2, frames) => some (st2, acc :: frames)
      | none => none := by
  have hb : slip_decode_byte max_size ⟨false, false, acc⟩ frame_end =
      (if acc.length > 0 then .ok ⟨false, false, []⟩ (some acc)
       else .ok ⟨false, false, acc⟩ none) := rfl
  rw [if_pos (List.length_pos.mpr hne)] at hb
  conv_lhs => rw [slip_decode_run]
  rw [hb]

/-- decoding the concatenation of the encodings of non-empty messages that
fit the decoder storage yields exactly those messages in order. -/
theorem slip_decode_encoded_frames (max_size : Nat) :
    ∀ Bs : List (List Nat), (∀ B ∈ Bs, B ≠ [] ∧ B.length ≤ max_size) →
      slip_decode_run max_size ⟨false, false, []⟩
        ((Bs.map (fun B => encoded_bytes B ++ [frame_end])).flatten) =
        some (⟨false, false, []⟩, Bs) := by
  intro Bs
  induction Bs with
  | nil => intro _; rfl
  | cons B Bs ih =>
    intro hall
    have hB := hall B (by simp)
    rw [List.map_cons, List.flatten_cons]
    rw [show (encoded_bytes B ++ [frame_end]) ++
        (Bs.map (fun B => encoded_bytes B ++ [frame_end])).flatten =
        encoded_bytes B ++ (frame_end :: (Bs.map (fun B => encoded_bytes B ++ [frame_end])).flatten)
        from by simp]
    rw [slip_decode_run_encBytes max_size B []
      (frame_end :: (Bs.map (fun B => encoded_bytes B ++ [frame_end])).flatten)
      (by simpa using hB.2)]
    rw [show ([] : List Nat) ++ B = B from rfl]
    rw [slip_decode_run_emit max_size B _ hB.1]
    rw [ih (fun B' hB' => hall B' (by simp [hB']))]

/-- when `slip_encode_all` succeeds, the encodings are exactly the escaped
messages each followed by a frame end. -/
theorem slip_encode_all_eq (maxE : Nat) :
    ∀ (Bs es : List (List Nat)), slip_encode_all maxE Bs = some es →
      es = Bs.map (fun B => encoded_bytes B ++ [frame_end]) := by
  intro Bs
  induction Bs with
  | nil =>
    intro es h
    simp only [slip_encode_all] at h
    injection h with h
    rw [← h]
    rfl
  | cons B Bs ih =>
    intro es h
    simp only [slip_encode_all] at h
    rw [slip_encode_eq] at h
    by_cases hfit : B.length + 1 + num_escapes B ≤ maxE
    · rw [if_pos hfit] at h
      cases hrec : slip_encode_all maxE Bs with
      | none =>
        rw [hrec] at h
        exact Option.noConfusion h
      | some es2 =>
        rw [hrec] at h
        injection h with h
        rw [← h, List.map_cons, ih es2 hrec]
    · rw [if_neg hfit] at h
      exact Option.noConfusion h

/-- C4 counterexample: for the empty byte sequence (whose encoding, a lone
frame end, fits any storage of size at least 2), the decoder ignores the
empty frame and yields no frame at all, where the claim requires the
single frame `[]`. -/
theorem C4_counterexample :
    slip_encode 1500 [] = some [frame_end] ∧
    slip_decode_frames 1500 [frame_end] = some [] ∧
    (some ([] : List (List Nat)) ≠ some [[]]) :=
  ⟨by decide, by decide, by decide⟩

/-- C4 (amended): for every list of non-empty byte sequences whose SLIP
encodings fit the encoder's storage and whose lengths fit the decoder's
storage, decoding the concatenation of the encodings yields exactly the
original sequences in order (the single-message round trip is the
one-element list). -/
theorem C4_slip_round_trip (maxE maxD : Nat) (Bs es : List (List Nat))
    (hBs : ∀ B ∈ Bs, B ≠ [] ∧ B.length ≤ maxD ∧ ∀ b ∈ B, b < 256)
    (henc : slip_encode_all maxE Bs = some es) :
    slip_decode_frames maxD es.flatten = some Bs := by
  rw [slip_encode_all_eq maxE Bs es henc]
  unfold slip_decode_frames slip_decode_initial_state
  rw [slip_decode_encoded_frames maxD Bs (fun B hB => ⟨(hBs B hB).1, (hBs B hB).2.1⟩)]
  rfl

/-- C4 witness: the round-trip theorem applied to the two concrete
messages `[104, 105]` and `[192, 7]` (the second needs escaping). -/
theorem C4_slip_round_trip_witness :
    (∀ B ∈ [[104, 105], [192, 7]], B ≠ ([] : List Nat) ∧ B.length ≤ 1500 ∧ ∀ b ∈ B, b < 256) ∧
    slip_encode_all 1500 [[104, 105], [192, 7]] = some [[104, 105, 192], [219, 220, 7, 192]] ∧
    slip_decode_frames 1500 ([[104, 105, 192], [219, 220, 7, 192]] : List (List Nat)).flatten =
      some [[104, 105], [192, 7]] :=
  ⟨by decide, by decide,
   C4_slip_round_trip 1500 1500 [[104, 105], [192, 7]] [[104, 105, 192], [219, 220, 7, 192]]
     (by decide) (by decide)⟩
